import Mathlib

/-!
# a10-autoscaler-k8s: the scaling decision and its confirmation monitor

A shallow embedding of `procLoop` / `RunProcLoop` (`main.go`),
`Cluster.GetDeploymentStatus` / `Cluster.AdjustDeployment` (`k8s-go/k8s.go`) and
`Device.GetVSThroughput` (`a10-golang-axapi/a10_slb.go`).

Conventions of the embedding:

* a Go result pair `(T, error)` is a Lean pair `T × GoError`, with `none` for `nil`;
  the value component is kept on the error path too, because the callers read it;
* `uint64` values are naturals below `2 ^ 64`, `int` values are integers and the
  conversion `int(x)` is `toInt`, which wraps at `2 ^ 63`;
* a REST endpoint is a function from the request to the reply; a reply body is
  the record of the JSON fields the code reads from it with `gjson`;
* log calls and prints are recorded, in order, as a list of `Event`s;
* `log.Fatal` (logrus) writes the entry and then exits the process with status 1.
-/

namespace Autoscaler

/-- Go's `error`: `none` stands for `nil`, `some msg` for an error whose text is `msg`. -/
abbrev GoError := Option String

/-- The conversion `int(x)` of a `uint64` on a 64-bit platform (two's complement). -/
def toInt (x : Nat) : Int :=
  if x % 2 ^ 64 < 2 ^ 63 then ((x % 2 ^ 64 : Nat) : Int) else ((x % 2 ^ 64 : Nat) : Int) - 2 ^ 64

/-! ## Data model -/

/-- The `cluster:` section of `Configuration` (main.go). -/
structure ClusterConfig where
  IP : String := ""
  Port : Int := 0
  Auth_Token : String := ""
  Deployment : String := ""
  Namespace : String := ""
  Min_Pods : Int := 0
  Max_Pods : Int := 0
  deriving DecidableEq, Repr

/-- The `thunder:` section of `Configuration` (main.go); `Rate` is a `uint64`. -/
structure ThunderConfig where
  IP : String := ""
  Port : Int := 0
  Secret : String := ""
  Secret_NS : String := ""
  SLB : String := ""
  SLB_Port : String := ""
  Rate : Nat := 0
  deriving DecidableEq, Repr

/-- The type `Configuration` of main.go. -/
structure Configuration where
  Debug : Int := 0
  Interval : Int := 0
  Timeout : Int := 0
  Cluster : ClusterConfig := {}
  Thunder : ThunderConfig := {}
  deriving DecidableEq, Repr

/-- The type `Port` of a10_slb.go; the default value is Go's zero value. -/
structure Port where
  PortNumber : Int := 0
  Protocol : String := ""
  ConnLimit : Nat := 0
  Status : String := ""
  AutoSNAT : Int := 0
  SvcGrp : String := ""
  Throughput : Nat := 0
  deriving DecidableEq, Repr

/-- The type `Deployment` of k8s.go; the default value is Go's zero value. -/
structure Deployment where
  Name : String := ""
  Namespace : String := ""
  MinReplicas : Int := 0
  CurrentReplicas : Int := 0
  deriving DecidableEq, Repr

/-- The fields `GetVSThroughput` reads from a reply of the load balancer:
`port.port-number`, `port.protocol` and `port.stats.throughput-bits-per-sec`. -/
structure StatsBody where
  portNumber : Int := 0
  protocol : String := ""
  throughputBitsPerSec : Nat := 0
  deriving DecidableEq, Repr

/-- The fields the code reads from a reply of the Kubernetes API:
`metadata.name`, `metadata.namespace` and `spec.replicas`. -/
structure ApiBody where
  metadataName : String := ""
  metadataNamespace : String := ""
  specReplicas : Int := 0
  deriving DecidableEq, Repr

/-- The type `Device` of the axapi package, as far as `GetVSThroughput` uses it:
`restCall url method` is `_restCall(d, url, method, nil)` and `chkResp` is `d.chkResp`;
both live in a file of the package that is not part of the sources at hand. -/
structure Device where
  restCall : String → String → StatsBody × GoError
  chkResp : StatsBody → Bool × GoError

/-- The type `Cluster` of k8s.go together with the API server behind it:
`restCall url method payload` is the reply of `_restCall(c, url, method, payload)`. -/
structure Cluster where
  URL : String := ""
  Token : String := ""
  restCall : String → String → String → ApiBody × GoError

/-- What the program writes: `fmt.Println` and the logrus calls. -/
inductive Event where
  | Println (s : String)
  | Info (msg : String)
  | Warn (msg : String)
  | Error (msg : String)
  | Fatal (msg : String)
  deriving DecidableEq, Repr

/-- How a call of `procLoop` (or the process) stands: it has returned and the
process goes on, the process has exited with a status, or it has panicked. -/
inductive Outcome where
  | returned
  | exit (code : Int)
  | panic (msg : String)
  deriving DecidableEq, Repr

/-! ## a10_slb.go and k8s.go -/

/-- The method `Device.GetVSThroughput` (a10_slb.go, lines 249-267). -/
def Device.GetVSThroughput (d : Device) (vs p : String) : Port × GoError :=
  let port : Port := {}
  let url := "/slb/virtual-server/" ++ vs ++ "/port/" ++ p ++ "/stats"
  match d.restCall url "GET" with
  | (_, some err) => (port, some err)
  | (body, none) =>
    match d.chkResp body with
    | (true, msg) => (port, msg)
    | (false, _) =>
      ({ port with
          PortNumber := body.portNumber
          Protocol := body.protocol
          Throughput := body.throughputBitsPerSec % 2 ^ 64 }, none)

/-- The method `Cluster.GetDeploymentStatus` (k8s.go, lines 134-145). -/
def GetDeploymentStatus (c : Cluster) (dep ns : String) : Deployment × GoError :=
  let d : Deployment := {}
  let url := "/apis/apps/v1/namespaces/" ++ ns ++ "/deployments/" ++ dep
  match c.restCall url "GET" "" with
  | (_, some err) => (d, some err)
  | (body, none) =>
    ({ d with
        Name := body.metadataName
        Namespace := body.metadataNamespace
        CurrentReplicas := body.specReplicas }, none)

/-- The PATCH payload built at k8s.go line 169 for a replica count `n`. -/
def scalePayload (n : Int) : String :=
  "\x7b\n\"spec\":\x7b\n\"replicas\": " ++ toString n ++ "\n\x7d\n\x7d"

/-- The method `Cluster.AdjustDeployment` (k8s.go, lines 149-185). -/
def AdjustDeployment (c : Cluster) (d : Deployment) (num : Int) : Deployment × GoError :=
  if num = d.CurrentReplicas then (d, none)
  else
    let n := if num < d.MinReplicas then d.MinReplicas else num
    if d.Name = "" then (d, some "d.Name cannot be blank in Deployment structure")
    else if d.Namespace = "" then
      (d, some "d.Namespace cannot be blank in Deployment structure")
    else
      let pl := scalePayload n
      let url := "/apis/apps/v1/namespaces/" ++ d.Namespace ++ "/deployments/" ++ d.Name
        ++ "/scale"
      match c.restCall url "PATCH" pl with
      | (_, some err) => (d, some err)
      | (body, none) =>
        let x := body.specReplicas
        if x ≠ num then
          (d, some ("Pod Replicas adjustment failed - Required: " ++ toString num
            ++ " Active: " ++ toString x))
        else ({ d with CurrentReplicas := num }, none)

/-! ## main.go: the confirmation goroutine -/

/-- Where the goroutine of main.go lines 149-169 stands: still in its loop
(`Pending`), returned after "Adjustment of Cluster is Finished" (`Confirmed`),
returned after "Adjustment of Replicas Timed Out" (`TimedOut`), or at
`log.Fatal` after a failed status fetch (`Failed`). -/
inductive MonitorState where
  | Pending
  | Confirmed
  | TimedOut
  | Failed
  deriving DecidableEq, Repr

/-- The goroutine of main.go lines 149-169: the variables it captures from
`procLoop` (`y`, `rpl`, `cfg.Timeout`), its state, the number of calls of
`GetDeploymentStatus` it has made and what it has logged. -/
structure Monitor where
  y : Deployment
  rpl : Int
  timeout : Int
  state : MonitorState := MonitorState.Pending
  polls : Nat := 0
  log : List Event := []
  deriving DecidableEq, Repr

/-- One round of the goroutine's `select`: the `timeout` channel is taken, or the
`ticker` channel is taken and the poll is answered by the cluster as it is then. -/
inductive Select where
  | timeout
  | ticker (c : Cluster)

/-- One round of the `for { select { ... } }` of main.go lines 152-168. The `y`
declared at line 158 is a new variable of the `case` block; the captured `y`
is only read. -/
def Monitor.step (m : Monitor) (ev : Select) : Monitor :=
  match m.state with
  | MonitorState.Pending =>
    match ev with
    | Select.timeout =>
      { m with
          state := MonitorState.TimedOut
          log := m.log ++ [Event.Error "Adjustment of Replicas Timed Out"] }
    | Select.ticker c =>
      match GetDeploymentStatus c m.y.Name m.y.Namespace with
      | (_, some err) =>
        { m with
            state := MonitorState.Failed
            polls := m.polls + 1
            log := m.log ++ [Event.Fatal err] }
      | (y, none) =>
        if y.CurrentReplicas = m.rpl then
          { m with
              state := MonitorState.Confirmed
              polls := m.polls + 1
              log := m.log ++ [Event.Info "Adjustment of Cluster is Finished"] }
        else { m with polls := m.polls + 1 }
  | _ => m

/-- The goroutine over the rounds of its `select`, in the order they are taken. -/
def Monitor.run (m : Monitor) (evs : List Select) : Monitor :=
  evs.foldl Monitor.step m

/-! ## main.go: procLoop -/

/-- A call of `AdjustDeployment` made by `procLoop`: arguments and results. -/
structure AdjustCall where
  d : Deployment
  num : Int
  ret : Deployment
  err : GoError
  deriving DecidableEq, Repr

/-- What one call of `procLoop` did: the entries it wrote, the value of `rpl`
when it stopped (`none` when line 104 was not reached), the value of `y` when it
stopped, the call of `AdjustDeployment` it made, the goroutine it started, and
how it ended. -/
structure Tick where
  log : List Event := []
  rpl : Option Int := none
  y : Deployment := {}
  adjust : Option AdjustCall := none
  monitor : Option Monitor := none
  outcome : Outcome := Outcome.returned
  deriving DecidableEq, Repr

/-- Lines 127-137 of main.go: the bounds applied to `rpl`, with the warnings. -/
def clampReplicas (cfg : Configuration) (rpl : Int) : Int × List Event :=
  let rpl := if rpl = 0 then cfg.Cluster.Min_Pods else rpl
  let (rpl, w1) :=
    if rpl < cfg.Cluster.Min_Pods then
      (cfg.Cluster.Min_Pods,
        [Event.Warn "Tried to adjust Replicas below minimum. Adjusting to Minimum."])
    else (rpl, [])
  let (rpl, w2) :=
    if rpl > cfg.Cluster.Max_Pods then
      (cfg.Cluster.Max_Pods,
        [Event.Warn "Tried to adjust Replicas above maximum. Adjusting to Maximum."])
    else (rpl, [])
  (rpl, w1 ++ w2)

/-- Lines 111-172 of main.go: the adjustment, from the computed `rpl` and the
fetched `y`; `log` holds what was written before. -/
def adjustIfNeeded (c : Cluster) (cfg : Configuration) (log : List Event) (y : Deployment)
    (rpl : Int) : Tick :=
  if rpl ≠ y.CurrentReplicas then
    let (rpl, warns) := clampReplicas cfg rpl
    let log := log ++ warns
    if rpl ≠ y.CurrentReplicas then
      let out := "Adjusting Deployment \x27" ++ y.Name ++ "\x27 to " ++ toString rpl
        ++ " Replicas."
      let log := log ++ [Event.Info out]
      let (y1, err) := AdjustDeployment c y rpl
      let log := match err with
        | some e => log ++ [Event.Error e]
        | none => log
      { log := log
        rpl := some rpl
        y := y1
        adjust := some { d := y, num := rpl, ret := y1, err := err }
        monitor := some { y := y1, rpl := rpl, timeout := cfg.Timeout } }
    else { log := log, rpl := some rpl, y := y }
  else { log := log, rpl := some rpl, y := y }

/-- The function `procLoop` of main.go (lines 81-173). -/
def procLoop (d : Device) (c : Cluster) (cfg : Configuration) : Tick :=
  let (port, err) := d.GetVSThroughput cfg.Thunder.SLB cfg.Thunder.SLB_Port
  let log : List Event := match err with
    | some e => [Event.Error e]
    | none => []
  let (y, err) := GetDeploymentStatus c cfg.Cluster.Deployment cfg.Cluster.Namespace
  match err with
  | some e => { log := log ++ [Event.Fatal e], y := y, outcome := Outcome.exit 1 }
  | none =>
    let log := if cfg.Debug > 8 then
        log ++ [Event.Println "---------------------------",
          Event.Println ("replicas running =  " ++ toString y.CurrentReplicas),
          Event.Println ("throughput =  " ++ toString port.Throughput)]
      else log
    let rate := port.Throughput / 1000
    if cfg.Thunder.Rate = 0 then
      { log := log, y := y,
        outcome := Outcome.panic "runtime error: integer divide by zero" }
    else
      let rpl := toInt (rate / cfg.Thunder.Rate)
      let log := if cfg.Debug > 8 then
          log ++ [Event.Println ("replicas needed =  " ++ toString rpl)]
        else log
      adjustIfNeeded c cfg log y rpl

/-- Lines 103-104 of main.go on their own: `rate := port.Throughput / 1000` and
`rpl := int(rate / cfg.Thunder.Rate)`; `none` when the division panics. -/
def replicasNeeded (throughput Rate : Nat) : Option Int :=
  let rate := throughput / 1000
  if Rate = 0 then none else some (toInt (rate / Rate))

/-- The URL of the scale request built at k8s.go line 170. -/
def scaleUrl (d : Deployment) : String :=
  "/apis/apps/v1/namespaces/" ++ d.Namespace ++ "/deployments/" ++ d.Name ++ "/scale"

/-! ## main.go: the run of the process -/

/-- The process after `main` has reached the loop: what the main goroutine has
written, the calls of `AdjustDeployment` made so far, the confirmation
goroutines started so far, and whether the process still runs (`returned`). -/
structure Sys where
  log : List Event := []
  calls : List AdjustCall := []
  monitors : List Monitor := []
  outcome : Outcome := Outcome.returned
  deriving DecidableEq, Repr

/-- What happens next in the process: the timer of `RunProcLoop` fires (or `main`
makes its first direct call) and `procLoop` runs against the device and cluster
as they answer then, or the goroutine number `i` takes one round of its `select`. -/
inductive Step where
  | tick (d : Device) (c : Cluster)
  | select (i : Nat) (ev : Select)

/-- One step of the process. Nothing runs once the process has exited. -/
def Sys.step (cfg : Configuration) (s : Sys) (st : Step) : Sys :=
  if s.outcome ≠ Outcome.returned then s
  else
    match st with
    | Step.tick d c =>
      let t := procLoop d c cfg
      { log := s.log ++ t.log
        calls := s.calls ++ t.adjust.toList
        monitors := s.monitors ++ t.monitor.toList
        outcome := t.outcome }
    | Step.select i ev =>
      match s.monitors.get? i with
      | none => s
      | some m =>
        let m1 := m.step ev
        { s with
            monitors := s.monitors.set i m1
            outcome :=
              if m.state = MonitorState.Pending ∧ m1.state = MonitorState.Failed then
                Outcome.exit 1
              else s.outcome }

/-- The function `RunProcLoop` of main.go (lines 259-265), preceded by the direct
call of line 252: the calls of `procLoop`, interleaved with the rounds of the
goroutines, in the order given. -/
def RunProcLoop (cfg : Configuration) (steps : List Step) : Sys :=
  steps.foldl (Sys.step cfg) {}

/-! ## The decision as the specification words it -/

/-- The raw replica count of the specification: `floor((bps / 1000) / Rate)`. -/
def rawReplicas (bps Rate : Nat) : Int :=
  (((bps / 1000) / Rate : Nat) : Int)

/-- The target of the specification (section 4.1): `floor((bps / 1000) / Rate)`
clamped to `[Min_Pods, Max_Pods]`, and `Min_Pods` when that floor is `0`. -/
def specTarget (bps Rate : Nat) (Min_Pods Max_Pods : Int) : Int :=
  if rawReplicas bps Rate = 0 then Min_Pods
  else max Min_Pods (min (rawReplicas bps Rate) Max_Pods)

/-- The largest raw replica count a `uint64` throughput gives at the rate `Rate`:
`floor(((2 ^ 64 - 1) / 1000) / Rate)`. -/
def maxRawReplicas (Rate : Nat) : Int :=
  rawReplicas (2 ^ 64 - 1) Rate

/-- The number a list of decimal digits stands for. -/
def decimalValue (cs : List Char) : Nat :=
  cs.foldl (fun acc c => 10 * acc + (c.toNat - 48)) 0

/-! ## What a call of `procLoop` sees -/

/-- The throughput sample `procLoop` works with: `port.Throughput` after line 84
(the zero value when the fetch failed). -/
def throughputSeen (d : Device) (cfg : Configuration) : Nat :=
  (d.GetVSThroughput cfg.Thunder.SLB cfg.Thunder.SLB_Port).1.Throughput

/-- The error of the throughput fetch of line 84. -/
def throughputErr (d : Device) (cfg : Configuration) : GoError :=
  (d.GetVSThroughput cfg.Thunder.SLB cfg.Thunder.SLB_Port).2

/-- The deployment `procLoop` fetches at line 90: `y`. -/
def statusSeen (c : Cluster) (cfg : Configuration) : Deployment :=
  (GetDeploymentStatus c cfg.Cluster.Deployment cfg.Cluster.Namespace).1

/-- The error of the status fetch of line 90. -/
def statusErr (c : Cluster) (cfg : Configuration) : GoError :=
  (GetDeploymentStatus c cfg.Cluster.Deployment cfg.Cluster.Namespace).2

/-! ## Concrete devices, clusters and configurations -/

/-- A load balancer that reports `bps` bits per second. -/
def deviceAt (bps : Nat) : Device :=
  { restCall := fun _ _ => ({ throughputBitsPerSec := bps }, none)
    chkResp := fun _ => (false, none) }

/-- A load balancer that cannot be reached. -/
def deviceDown : Device :=
  { restCall := fun _ _ => ({}, some "dial tcp: connection refused")
    chkResp := fun _ => (false, none) }

/-- A cluster whose deployment `web` reports `cur` replicas and which answers a
PATCH with `patchReply`. -/
def clusterAt (cur : Int) (patchReply : ApiBody × GoError) : Cluster :=
  { restCall := fun _ method _ =>
      if method = "PATCH" then patchReply
      else
        ({ metadataName := "web", metadataNamespace := "default", specReplicas := cur },
          none) }

/-- A cluster whose API server answers every request with an error. -/
def clusterDown : Cluster :=
  { restCall := fun _ _ _ => ({}, some "503 Service Unavailable") }

/-- A configuration for the deployment `web` with the given bounds and rate,
`check_interval: 5` and `cmd_timeout: 20`. -/
def cfgAt (lo hi : Int) (rate : Nat) : Configuration :=
  { Interval := 5
    Timeout := 20
    Cluster := { Deployment := "web", Namespace := "default", Min_Pods := lo, Max_Pods := hi }
    Thunder := { SLB := "vs1", SLB_Port := "80+http", Rate := rate } }

/-- A cluster that answers a PATCH whose body is exactly `payload` with a scale of
`n` replicas, and any other PATCH with an error; its deployment `web` reports
`cur` replicas. -/
def clusterExpecting (cur : Int) (payload : String) (n : Int) : Cluster :=
  { restCall := fun _ method pl =>
      if method = "PATCH" then
        if pl = payload then ({ specReplicas := n }, none)
        else ({}, some "400 Bad Request")
      else
        ({ metadataName := "web", metadataNamespace := "default", specReplicas := cur },
          none) }

/-- The deployment `web` with `n` replicas, as `GetDeploymentStatus` returns it. -/
def webAt (n : Int) : Deployment :=
  { Name := "web", Namespace := "default", CurrentReplicas := n }

/-! ## Lemmas on the pieces -/

theorem toInt_of_lt {x : Nat} (h : x < 2 ^ 63) : toInt x = (x : Int) := by
  have h1 : x % 2 ^ 64 = x := Nat.mod_eq_of_lt (by omega)
  unfold toInt
  rw [h1, if_pos h]

theorem throughputSeen_lt (d : Device) (cfg : Configuration) :
    throughputSeen d cfg < 2 ^ 64 := by
  unfold throughputSeen Device.GetVSThroughput
  dsimp only
  generalize d.restCall _ "GET" = r
  rcases r with ⟨body, _ | e⟩
  · dsimp only
    generalize d.chkResp body = r2
    rcases r2 with ⟨_ | _, msg⟩
    · exact Nat.mod_lt _ (by norm_num)
    · norm_num
  · norm_num

theorem throughputSeen_of_err (d : Device) (cfg : Configuration)
    (h : throughputErr d cfg ≠ none) : throughputSeen d cfg = 0 := by
  unfold throughputErr at h
  unfold throughputSeen
  unfold Device.GetVSThroughput at h ⊢
  dsimp only at h ⊢
  generalize d.restCall _ "GET" = r at h ⊢
  rcases r with ⟨body, _ | e⟩
  · dsimp only at h ⊢
    generalize d.chkResp body = r2 at h ⊢
    rcases r2 with ⟨_ | _, msg⟩
    · exact absurd rfl h
    · rfl
  · rfl

theorem toInt_raw (bps Rate : Nat) (hb : bps < 2 ^ 64) :
    toInt (bps / 1000 / Rate) = rawReplicas bps Rate := by
  have h1 : bps / 1000 / Rate ≤ bps / 1000 := Nat.div_le_self _ _
  have h2 : bps / 1000 < 2 ^ 63 := by omega
  exact toInt_of_lt (lt_of_le_of_lt h1 h2)

theorem rawReplicas_nonneg (bps Rate : Nat) : 0 ≤ rawReplicas bps Rate :=
  Int.ofNat_nonneg _

theorem rawReplicas_mono {b1 b2 : Nat} (Rate : Nat) (h : b1 ≤ b2) :
    rawReplicas b1 Rate ≤ rawReplicas b2 Rate := by
  unfold rawReplicas
  exact Int.ofNat_le.mpr (Nat.div_le_div_right (Nat.div_le_div_right h))

theorem clampReplicas_fst (cfg : Configuration) (rpl : Int)
    (hm : cfg.Cluster.Min_Pods ≤ cfg.Cluster.Max_Pods) :
    (clampReplicas cfg rpl).1 =
      if rpl = 0 then cfg.Cluster.Min_Pods
      else max cfg.Cluster.Min_Pods (min rpl cfg.Cluster.Max_Pods) := by
  unfold clampReplicas
  by_cases hz : rpl = 0
  · simp only [hz, if_true]
    split_ifs <;> simp_all
    all_goals omega
  · simp only [hz, if_false]
    split_ifs <;> simp_all
    all_goals omega

theorem clampReplicas_spec (cfg : Configuration) (bps : Nat)
    (hm : cfg.Cluster.Min_Pods ≤ cfg.Cluster.Max_Pods) :
    (clampReplicas cfg (rawReplicas bps cfg.Thunder.Rate)).1 =
      specTarget bps cfg.Thunder.Rate cfg.Cluster.Min_Pods cfg.Cluster.Max_Pods := by
  rw [clampReplicas_fst cfg _ hm]
  rfl

theorem specTarget_bounds (bps Rate : Nat) (lo hi : Int) (hm : lo ≤ hi) :
    lo ≤ specTarget bps Rate lo hi ∧ specTarget bps Rate lo hi ≤ hi := by
  unfold specTarget
  split_ifs
  · exact ⟨le_refl _, hm⟩
  · exact ⟨le_max_left _ _, max_le hm (min_le_right _ _)⟩

/-- With a successful status fetch and a non-zero rate, `procLoop` is the
adjustment block run on the fetched deployment and the raw replica count. -/
theorem procLoop_eq (d : Device) (c : Cluster) (cfg : Configuration)
    (hs : statusErr c cfg = none) (hr : 0 < cfg.Thunder.Rate) :
    ∃ log, procLoop d c cfg =
      adjustIfNeeded c cfg log (statusSeen c cfg)
        (rawReplicas (throughputSeen d cfg) cfg.Thunder.Rate) := by
  have hb := throughputSeen_lt d cfg
  have hraw := toInt_raw (throughputSeen d cfg) cfg.Thunder.Rate hb
  unfold statusErr at hs
  unfold statusSeen
  unfold throughputSeen at hraw ⊢
  unfold procLoop
  rcases hg : GetDeploymentStatus c cfg.Cluster.Deployment cfg.Cluster.Namespace with ⟨y, e⟩
  rw [hg] at hs
  simp only at hs
  subst hs
  simp only [Nat.pos_iff_ne_zero.mp hr, if_false, hraw]
  exact ⟨_, rfl⟩

theorem adjustIfNeeded_rpl (c : Cluster) (cfg : Configuration) (log : List Event)
    (y : Deployment) (rpl : Int) :
    (adjustIfNeeded c cfg log y rpl).rpl =
      some (if rpl = y.CurrentReplicas then rpl else (clampReplicas cfg rpl).1) := by
  unfold adjustIfNeeded
  by_cases h : rpl = y.CurrentReplicas
  · simp [h]
  · simp only [ne_eq, h, not_false_eq_true, if_true, if_false]
    split_ifs <;> rfl

/-- The adjustment block calls `AdjustDeployment` exactly when the raw count and
the clamped count both differ from the current count. -/
theorem adjustIfNeeded_adjust (c : Cluster) (cfg : Configuration) (log : List Event)
    (y : Deployment) (rpl : Int) :
    (adjustIfNeeded c cfg log y rpl).adjust =
      if rpl ≠ y.CurrentReplicas ∧ (clampReplicas cfg rpl).1 ≠ y.CurrentReplicas then
        some { d := y, num := (clampReplicas cfg rpl).1
               ret := (AdjustDeployment c y (clampReplicas cfg rpl).1).1
               err := (AdjustDeployment c y (clampReplicas cfg rpl).1).2 }
      else none := by
  unfold adjustIfNeeded
  by_cases h : rpl = y.CurrentReplicas
  · simp [h]
  · by_cases h2 : (clampReplicas cfg rpl).1 = y.CurrentReplicas
    · simp [h, h2]
    · simp [h, h2]

/-- The adjustment block starts the goroutine exactly when it calls
`AdjustDeployment`, whatever that call returns. -/
theorem adjustIfNeeded_monitor (c : Cluster) (cfg : Configuration) (log : List Event)
    (y : Deployment) (rpl : Int) :
    (adjustIfNeeded c cfg log y rpl).monitor =
      if rpl ≠ y.CurrentReplicas ∧ (clampReplicas cfg rpl).1 ≠ y.CurrentReplicas then
        some { y := (AdjustDeployment c y (clampReplicas cfg rpl).1).1
               rpl := (clampReplicas cfg rpl).1
               timeout := cfg.Timeout }
      else none := by
  unfold adjustIfNeeded
  by_cases h : rpl = y.CurrentReplicas
  · simp [h]
  · by_cases h2 : (clampReplicas cfg rpl).1 = y.CurrentReplicas
    · simp [h, h2]
    · simp [h, h2]

theorem adjustIfNeeded_y (c : Cluster) (cfg : Configuration) (log : List Event)
    (y : Deployment) (rpl : Int) :
    (adjustIfNeeded c cfg log y rpl).y =
      if rpl ≠ y.CurrentReplicas ∧ (clampReplicas cfg rpl).1 ≠ y.CurrentReplicas then
        (AdjustDeployment c y (clampReplicas cfg rpl).1).1
      else y := by
  unfold adjustIfNeeded
  by_cases h : rpl = y.CurrentReplicas
  · simp [h]
  · by_cases h2 : (clampReplicas cfg rpl).1 = y.CurrentReplicas
    · simp [h, h2]
    · simp [h, h2]

theorem adjustIfNeeded_outcome (c : Cluster) (cfg : Configuration) (log : List Event)
    (y : Deployment) (rpl : Int) :
    (adjustIfNeeded c cfg log y rpl).outcome = Outcome.returned := by
  unfold adjustIfNeeded
  by_cases h : rpl = y.CurrentReplicas
  · simp [h]
  · by_cases h2 : (clampReplicas cfg rpl).1 = y.CurrentReplicas
    · simp [h, h2]
    · simp [h, h2]

/-- A failed status fetch at line 90 ends `procLoop` at `log.Fatal`. -/
theorem procLoop_of_statusErr (d : Device) (c : Cluster) (cfg : Configuration) (e : String)
    (hs : statusErr c cfg = some e) :
    (procLoop d c cfg).outcome = Outcome.exit 1 ∧ (procLoop d c cfg).adjust = none ∧
      (procLoop d c cfg).monitor = none ∧ (procLoop d c cfg).rpl = none := by
  unfold statusErr at hs
  unfold procLoop
  rcases hg : GetDeploymentStatus c cfg.Cluster.Deployment cfg.Cluster.Namespace with ⟨y, e1⟩
  rw [hg] at hs
  simp only at hs
  subst hs
  exact ⟨rfl, rfl, rfl, rfl⟩

/-- A zero rate makes `procLoop` panic at the division of line 104. -/
theorem procLoop_of_rate_zero (d : Device) (c : Cluster) (cfg : Configuration)
    (hs : statusErr c cfg = none) (hr : cfg.Thunder.Rate = 0) :
    (procLoop d c cfg).outcome = Outcome.panic "runtime error: integer divide by zero" ∧
      (procLoop d c cfg).adjust = none ∧ (procLoop d c cfg).monitor = none := by
  unfold statusErr at hs
  unfold procLoop
  rcases hg : GetDeploymentStatus c cfg.Cluster.Deployment cfg.Cluster.Namespace with ⟨y, e1⟩
  rw [hg] at hs
  simp only at hs
  subst hs
  simp [hr]

/-- A call of `AdjustDeployment` by `procLoop` presupposes a successful status
fetch. -/
theorem statusErr_of_adjust (d : Device) (c : Cluster) (cfg : Configuration)
    (call : AdjustCall) (h : (procLoop d c cfg).adjust = some call) :
    statusErr c cfg = none := by
  rcases hs : statusErr c cfg with _ | e
  · rfl
  · rw [(procLoop_of_statusErr d c cfg e hs).2.1] at h
    exact absurd h (by simp)

/-- The order of the final `rpl` in the raw count, on integers. -/
theorem final_mono (lo hi cur r1 r2 : Int) (h12 : r1 ≤ r2) (h0 : 0 ≤ r1)
    (hlo : lo ≤ cur) (hhi : cur ≤ hi) :
    (if r1 = cur then cur else if r1 = 0 then lo else max lo (min r1 hi)) ≤
      (if r2 = cur then cur else if r2 = 0 then lo else max lo (min r2 hi)) := by
  split_ifs <;> omega

/-- The value of `rpl` when `procLoop` stops, for a successful status fetch. -/
theorem procLoop_rpl (d : Device) (c : Cluster) (cfg : Configuration)
    (hs : statusErr c cfg = none) (hr : 0 < cfg.Thunder.Rate)
    (hm : cfg.Cluster.Min_Pods ≤ cfg.Cluster.Max_Pods) :
    (procLoop d c cfg).rpl =
      some (if rawReplicas (throughputSeen d cfg) cfg.Thunder.Rate =
              (statusSeen c cfg).CurrentReplicas
            then (statusSeen c cfg).CurrentReplicas
            else specTarget (throughputSeen d cfg) cfg.Thunder.Rate
              cfg.Cluster.Min_Pods cfg.Cluster.Max_Pods) := by
  obtain ⟨log, hp⟩ := procLoop_eq d c cfg hs hr
  rw [hp, adjustIfNeeded_rpl, clampReplicas_spec cfg _ hm]
  split_ifs with h
  · rw [h]
  · rfl

/-- What `procLoop` does after a successful status fetch when the raw count and
the clamped target both differ from the current count: one call of
`AdjustDeployment` with the clamped target, and one goroutine, started whatever
the call returned. -/
theorem procLoop_adjusts (d : Device) (c : Cluster) (cfg : Configuration)
    (hs : statusErr c cfg = none) (hr : 0 < cfg.Thunder.Rate)
    (hm : cfg.Cluster.Min_Pods ≤ cfg.Cluster.Max_Pods)
    (h1 : rawReplicas (throughputSeen d cfg) cfg.Thunder.Rate ≠
      (statusSeen c cfg).CurrentReplicas)
    (h2 : specTarget (throughputSeen d cfg) cfg.Thunder.Rate cfg.Cluster.Min_Pods
      cfg.Cluster.Max_Pods ≠ (statusSeen c cfg).CurrentReplicas) :
    (procLoop d c cfg).adjust =
        some { d := statusSeen c cfg
               num := specTarget (throughputSeen d cfg) cfg.Thunder.Rate
                 cfg.Cluster.Min_Pods cfg.Cluster.Max_Pods
               ret := (AdjustDeployment c (statusSeen c cfg)
                 (specTarget (throughputSeen d cfg) cfg.Thunder.Rate
                   cfg.Cluster.Min_Pods cfg.Cluster.Max_Pods)).1
               err := (AdjustDeployment c (statusSeen c cfg)
                 (specTarget (throughputSeen d cfg) cfg.Thunder.Rate
                   cfg.Cluster.Min_Pods cfg.Cluster.Max_Pods)).2 } ∧
      (procLoop d c cfg).monitor =
        some { y := (AdjustDeployment c (statusSeen c cfg)
                 (specTarget (throughputSeen d cfg) cfg.Thunder.Rate
                   cfg.Cluster.Min_Pods cfg.Cluster.Max_Pods)).1
               rpl := specTarget (throughputSeen d cfg) cfg.Thunder.Rate
                 cfg.Cluster.Min_Pods cfg.Cluster.Max_Pods
               timeout := cfg.Timeout } ∧
      (procLoop d c cfg).y =
        (AdjustDeployment c (statusSeen c cfg)
          (specTarget (throughputSeen d cfg) cfg.Thunder.Rate
            cfg.Cluster.Min_Pods cfg.Cluster.Max_Pods)).1 ∧
      (procLoop d c cfg).outcome = Outcome.returned := by
  obtain ⟨log, hp⟩ := procLoop_eq d c cfg hs hr
  rw [hp, adjustIfNeeded_adjust, adjustIfNeeded_monitor, adjustIfNeeded_y,
    adjustIfNeeded_outcome, clampReplicas_spec cfg _ hm]
  simp [h1, h2]

/-- Every error path of `AdjustDeployment` returns its argument `d`. -/
theorem AdjustDeployment_of_err (c : Cluster) (d : Deployment) (num : Int)
    (h : (AdjustDeployment c d num).2 ≠ none) : (AdjustDeployment c d num).1 = d := by
  unfold AdjustDeployment at h ⊢
  dsimp only at h ⊢
  by_cases h1 : num = d.CurrentReplicas
  · rw [if_pos h1]
  · rw [if_neg h1] at h ⊢
    by_cases h2 : d.Name = ""
    · rw [if_pos h2]
    · rw [if_neg h2] at h ⊢
      by_cases h3 : d.Namespace = ""
      · rw [if_pos h3]
      · rw [if_neg h3] at h ⊢
        generalize c.restCall _ "PATCH" _ = r at h ⊢
        rcases r with ⟨body, _ | e⟩
        · dsimp only at h ⊢
          by_cases h4 : body.specReplicas ≠ num
          · rw [if_pos h4]
          · rw [if_neg h4] at h
            exact absurd rfl h
        · rfl

/-- A successful `AdjustDeployment` returns `d` with `CurrentReplicas` set to
`num`. -/
theorem AdjustDeployment_of_ok (c : Cluster) (d : Deployment) (num : Int)
    (h : (AdjustDeployment c d num).2 = none) :
    (AdjustDeployment c d num).1 = { d with CurrentReplicas := num } := by
  unfold AdjustDeployment at h ⊢
  dsimp only at h ⊢
  by_cases h1 : num = d.CurrentReplicas
  · rw [if_pos h1, h1]
  · rw [if_neg h1] at h ⊢
    by_cases h2 : d.Name = ""
    · rw [if_pos h2] at h
      exact absurd h (by simp)
    · rw [if_neg h2] at h ⊢
      by_cases h3 : d.Namespace = ""
      · rw [if_pos h3] at h
        exact absurd h (by simp)
      · rw [if_neg h3] at h ⊢
        generalize c.restCall _ "PATCH" _ = r at h ⊢
        rcases r with ⟨body, _ | e⟩
        · dsimp only at h ⊢
          by_cases h4 : body.specReplicas ≠ num
          · rw [if_pos h4] at h
            exact absurd h (by simp)
          · rw [if_neg h4]
        · exact absurd h (by simp)

/-- The goroutine leaves the variables it captured as they are. -/
theorem Monitor.step_captured (m : Monitor) (ev : Select) :
    (m.step ev).y = m.y ∧ (m.step ev).rpl = m.rpl ∧ (m.step ev).timeout = m.timeout := by
  unfold Monitor.step
  rcases m with ⟨y, rpl, t, st, polls, log⟩
  cases st <;> cases ev <;> dsimp only
  all_goals first
    | exact ⟨rfl, rfl, rfl⟩
    | (split
       · exact ⟨rfl, rfl, rfl⟩
       · split_ifs <;> exact ⟨rfl, rfl, rfl⟩)

theorem Monitor.run_captured (m : Monitor) (evs : List Select) :
    (m.run evs).y = m.y ∧ (m.run evs).rpl = m.rpl := by
  induction evs generalizing m with
  | nil => exact ⟨rfl, rfl⟩
  | cons ev evs ih =>
    have h := Monitor.step_captured m ev
    have h2 := ih (m.step ev)
    exact ⟨h2.1.trans h.1, h2.2.trans h.2.1⟩

/-- A goroutine that has left its loop does nothing more. -/
theorem Monitor.step_of_not_pending (m : Monitor) (ev : Select)
    (h : m.state ≠ MonitorState.Pending) : m.step ev = m := by
  unfold Monitor.step
  rcases m with ⟨y, rpl, t, st, polls, log⟩
  cases st
  · exact absurd rfl h
  · rfl
  · rfl
  · rfl

theorem Monitor.run_of_not_pending (m : Monitor) (evs : List Select)
    (h : m.state ≠ MonitorState.Pending) : m.run evs = m := by
  induction evs with
  | nil => rfl
  | cons ev evs ih =>
    show Monitor.run (m.step ev) evs = m
    rw [Monitor.step_of_not_pending m ev h]
    exact ih

theorem Monitor.run_append (m : Monitor) (e1 e2 : List Select) :
    m.run (e1 ++ e2) = (m.run e1).run e2 := by
  unfold Monitor.run
  exact List.foldl_append _ _ _ _

/-- A poll that succeeds with a count other than `rpl` leaves a pending
goroutine pending and counts one more poll. -/
theorem Monitor.step_ticker_mismatch (m : Monitor) (c : Cluster)
    (hp : m.state = MonitorState.Pending)
    (herr : (GetDeploymentStatus c m.y.Name m.y.Namespace).2 = none)
    (hne : (GetDeploymentStatus c m.y.Name m.y.Namespace).1.CurrentReplicas ≠ m.rpl) :
    m.step (Select.ticker c) = { m with polls := m.polls + 1 } := by
  unfold Monitor.step
  rw [hp]
  dsimp only
  rcases hg : GetDeploymentStatus c m.y.Name m.y.Namespace with ⟨y1, e1⟩
  rw [hg] at herr hne
  dsimp only at herr hne
  subst herr
  dsimp only
  rw [if_neg hne]

/-- Polls that all succeed with a count other than `rpl` leave a pending
goroutine pending, with its log as it was and one more poll counted each. -/
theorem Monitor.run_tickers_mismatch (m : Monitor) (cs : List Cluster)
    (hp : m.state = MonitorState.Pending)
    (hall : ∀ c ∈ cs, (GetDeploymentStatus c m.y.Name m.y.Namespace).2 = none ∧
      (GetDeploymentStatus c m.y.Name m.y.Namespace).1.CurrentReplicas ≠ m.rpl) :
    m.run (cs.map Select.ticker) = { m with polls := m.polls + cs.length } := by
  induction cs generalizing m with
  | nil => rfl
  | cons c cs ih =>
    have hc := hall c (List.mem_cons_self _ _)
    show Monitor.run (m.step (Select.ticker c)) (cs.map Select.ticker) = _
    rw [Monitor.step_ticker_mismatch m c hp hc.1 hc.2]
    rw [ih { m with polls := m.polls + 1 } hp
      (fun c1 h1 => hall c1 (List.mem_cons_of_mem _ h1))]
    simp only [List.length_cons]
    congr 1
    omega

/-- What a call of `AdjustDeployment` recorded for `procLoop` tells: its
argument is the fetched deployment, its results are those of `AdjustDeployment`,
the goroutine is started with the returned deployment and the requested count,
and `y` ends as the returned deployment. -/
theorem procLoop_adjust_inv (d : Device) (c : Cluster) (cfg : Configuration)
    (call : AdjustCall) (h : (procLoop d c cfg).adjust = some call) :
    call.d = statusSeen c cfg ∧ call.num ≠ call.d.CurrentReplicas ∧
      call.ret = (AdjustDeployment c call.d call.num).1 ∧
      call.err = (AdjustDeployment c call.d call.num).2 ∧
      (procLoop d c cfg).monitor =
        some { y := call.ret, rpl := call.num, timeout := cfg.Timeout } ∧
      (procLoop d c cfg).y = call.ret := by
  have hs := statusErr_of_adjust d c cfg call h
  have hr : 0 < cfg.Thunder.Rate := by
    rcases Nat.eq_zero_or_pos cfg.Thunder.Rate with h0 | h0
    · rw [(procLoop_of_rate_zero d c cfg hs h0).2.1] at h
      exact absurd h (by simp)
    · exact h0
  obtain ⟨log, hp⟩ := procLoop_eq d c cfg hs hr
  rw [hp, adjustIfNeeded_adjust] at h
  rw [hp, adjustIfNeeded_monitor, adjustIfNeeded_y]
  split_ifs at h ⊢ with hc
  have hcall := Option.some.inj h
  subst hcall
  exact ⟨rfl, hc.2, rfl, rfl, rfl, rfl⟩

/-- A call of `procLoop` while the process runs appends what it did. -/
theorem Sys.step_tick (cfg : Configuration) (s : Sys) (d : Device) (c : Cluster)
    (hrun : s.outcome = Outcome.returned) :
    Sys.step cfg s (Step.tick d c) =
      { log := s.log ++ (procLoop d c cfg).log
        calls := s.calls ++ (procLoop d c cfg).adjust.toList
        monitors := s.monitors ++ (procLoop d c cfg).monitor.toList
        outcome := (procLoop d c cfg).outcome } := by
  unfold Sys.step
  rw [hrun]
  simp

/-- Nothing runs once the process has exited or panicked. -/
theorem Sys.step_of_stopped (cfg : Configuration) (s : Sys) (st : Step)
    (h : s.outcome ≠ Outcome.returned) : Sys.step cfg s st = s := by
  unfold Sys.step
  rw [if_pos h]

/-- A failed poll of a pending goroutine ends at `log.Fatal`. -/
theorem Monitor.step_ticker_err (m : Monitor) (c : Cluster) (e : String)
    (hp : m.state = MonitorState.Pending)
    (herr : (GetDeploymentStatus c m.y.Name m.y.Namespace).2 = some e) :
    m.step (Select.ticker c) =
      { m with
          state := MonitorState.Failed
          polls := m.polls + 1
          log := m.log ++ [Event.Fatal e] } := by
  unfold Monitor.step
  rw [hp]
  dsimp only
  rcases hg : GetDeploymentStatus c m.y.Name m.y.Namespace with ⟨y1, e1⟩
  rw [hg] at herr
  dsimp only at herr
  subst herr
  rfl

/-- The timeout case of a pending goroutine. -/
theorem Monitor.step_timeout (m : Monitor) (hp : m.state = MonitorState.Pending) :
    m.step Select.timeout =
      { m with
          state := MonitorState.TimedOut
          log := m.log ++ [Event.Error "Adjustment of Replicas Timed Out"] } := by
  unfold Monitor.step
  rw [hp]

/-- A goroutine fresh from `procLoop` whose polls all succeed with a count other
than the requested one, and whose timeout case is then taken: it ends timed out
with the one error logged, the polls before the timeout counted and none after,
and the captured deployment as it was. -/
theorem Monitor.run_timeout (y : Deployment) (rpl timeout : Int) (polls : List Cluster)
    (rest : List Select)
    (hall : ∀ p ∈ polls, (GetDeploymentStatus p y.Name y.Namespace).2 = none ∧
      (GetDeploymentStatus p y.Name y.Namespace).1.CurrentReplicas ≠ rpl) :
    Monitor.run { y := y, rpl := rpl, timeout := timeout }
        (polls.map Select.ticker ++ Select.timeout :: rest) =
      { y := y, rpl := rpl, timeout := timeout, state := MonitorState.TimedOut
        polls := polls.length
        log := [Event.Error "Adjustment of Replicas Timed Out"] } := by
  rw [Monitor.run_append,
    Monitor.run_tickers_mismatch { y := y, rpl := rpl, timeout := timeout } polls rfl hall]
  show Monitor.run (Monitor.step _ Select.timeout) rest = _
  rw [Monitor.step_timeout _ rfl]
  rw [Monitor.run_of_not_pending _ rest (by simp)]
  simp

/-- With a successful status fetch, `procLoop` goes on from line 104 with the
value of `replicasNeeded`, and panics when there is none. -/
theorem procLoop_replicasNeeded (d : Device) (c : Cluster) (cfg : Configuration)
    (hs : statusErr c cfg = none) :
    (∀ r, replicasNeeded (throughputSeen d cfg) cfg.Thunder.Rate = some r →
      ∃ log, procLoop d c cfg = adjustIfNeeded c cfg log (statusSeen c cfg) r) ∧
    (replicasNeeded (throughputSeen d cfg) cfg.Thunder.Rate = none →
      (procLoop d c cfg).outcome = Outcome.panic "runtime error: integer divide by zero") := by
  unfold statusErr at hs
  unfold statusSeen replicasNeeded throughputSeen procLoop
  rcases hg : GetDeploymentStatus c cfg.Cluster.Deployment cfg.Cluster.Namespace with ⟨y, e⟩
  rw [hg] at hs
  simp only at hs
  subst hs
  by_cases h0 : cfg.Thunder.Rate = 0
  · simp [h0]
  · simp only [h0, if_false]
    refine ⟨?_, by simp⟩
    intro r hr
    rw [← Option.some.inj hr]
    exact ⟨_, rfl⟩

/-- A poll that succeeds with the count `rpl` ends a pending goroutine. -/
theorem Monitor.step_ticker_match (m : Monitor) (c : Cluster)
    (hp : m.state = MonitorState.Pending)
    (herr : (GetDeploymentStatus c m.y.Name m.y.Namespace).2 = none)
    (heq : (GetDeploymentStatus c m.y.Name m.y.Namespace).1.CurrentReplicas = m.rpl) :
    m.step (Select.ticker c) =
      { m with
          state := MonitorState.Confirmed
          polls := m.polls + 1
          log := m.log ++ [Event.Info "Adjustment of Cluster is Finished"] } := by
  unfold Monitor.step
  rw [hp]
  dsimp only
  rcases hg : GetDeploymentStatus c m.y.Name m.y.Namespace with ⟨y1, e1⟩
  rw [hg] at herr heq
  dsimp only at herr heq
  subst herr
  dsimp only
  rw [if_pos heq]

/-- A goroutine fresh from `procLoop` whose first polls all succeed with a count
other than the requested one and whose next poll reports the requested count:
it ends confirmed with the one entry logged, that poll being its last, and the
captured deployment as it was. -/
theorem Monitor.run_confirmed (y : Deployment) (rpl timeout : Int) (before : List Cluster)
    (hit : Cluster) (rest : List Select)
    (hall : ∀ p ∈ before, (GetDeploymentStatus p y.Name y.Namespace).2 = none ∧
      (GetDeploymentStatus p y.Name y.Namespace).1.CurrentReplicas ≠ rpl)
    (herr : (GetDeploymentStatus hit y.Name y.Namespace).2 = none)
    (heq : (GetDeploymentStatus hit y.Name y.Namespace).1.CurrentReplicas = rpl) :
    Monitor.run { y := y, rpl := rpl, timeout := timeout }
        (before.map Select.ticker ++ Select.ticker hit :: rest) =
      { y := y, rpl := rpl, timeout := timeout, state := MonitorState.Confirmed
        polls := before.length + 1
        log := [Event.Info "Adjustment of Cluster is Finished"] } := by
  rw [Monitor.run_append,
    Monitor.run_tickers_mismatch { y := y, rpl := rpl, timeout := timeout } before rfl hall]
  have hstep := Monitor.step_ticker_match
    { y := y, rpl := rpl, timeout := timeout, polls := 0 + before.length } hit rfl herr heq
  show Monitor.run (Monitor.step
    { y := y, rpl := rpl, timeout := timeout, polls := 0 + before.length }
    (Select.ticker hit)) rest = _
  rw [hstep]
  rw [Monitor.run_of_not_pending _ rest (by simp)]
  simp

/-- The goroutine of a tick whose `AdjustDeployment` returned no error, confirmed
at its poll number `before.length + 1`: it stops there, and the `y` of `procLoop`
has the requested count. -/
theorem procLoop_confirmed_of_ok (d : Device) (c : Cluster) (cfg : Configuration)
    (call : AdjustCall) (m : Monitor) (before : List Cluster) (hit : Cluster)
    (rest : List Select)
    (hcall : (procLoop d c cfg).adjust = some call) (hok : call.err = none)
    (hmon : (procLoop d c cfg).monitor = some m)
    (hall : ∀ p ∈ before, (GetDeploymentStatus p m.y.Name m.y.Namespace).2 = none ∧
      (GetDeploymentStatus p m.y.Name m.y.Namespace).1.CurrentReplicas ≠ call.num)
    (herr : (GetDeploymentStatus hit m.y.Name m.y.Namespace).2 = none)
    (heq : (GetDeploymentStatus hit m.y.Name m.y.Namespace).1.CurrentReplicas = call.num) :
    (m.run (before.map Select.ticker ++ Select.ticker hit :: rest)).state
        = MonitorState.Confirmed ∧
      (m.run (before.map Select.ticker ++ Select.ticker hit :: rest)).polls
        = before.length + 1 ∧
      (m.run (before.map Select.ticker ++ Select.ticker hit :: rest)).y
        = (procLoop d c cfg).y ∧
      (procLoop d c cfg).y.CurrentReplicas = call.num := by
  have hinv := procLoop_adjust_inv d c cfg call hcall
  rw [hinv.2.2.2.2.1] at hmon
  have hm := (Option.some.inj hmon).symm
  subst hm
  rw [Monitor.run_confirmed call.ret call.num cfg.Timeout before hit rest hall herr heq]
  refine ⟨rfl, rfl, hinv.2.2.2.2.2.symm, ?_⟩
  rw [hinv.2.2.2.2.2, hinv.2.2.1,
    AdjustDeployment_of_ok c call.d call.num (hinv.2.2.2.1 ▸ hok)]

/-- What `AdjustDeployment` does for a count below `d.MinReplicas`: the one
request it makes carries `d.MinReplicas`, and the reply is compared with `num`. -/
theorem AdjustDeployment_below_min (c : Cluster) (d : Deployment) (num : Int)
    (hn : d.Name ≠ "") (hns : d.Namespace ≠ "") (hlt : num < d.MinReplicas)
    (hne : num ≠ d.CurrentReplicas) :
    AdjustDeployment c d num =
      match c.restCall (scaleUrl d) "PATCH" (scalePayload d.MinReplicas) with
      | (_, some err) => (d, some err)
      | (body, none) =>
        if body.specReplicas ≠ num then
          (d, some ("Pod Replicas adjustment failed - Required: " ++ toString num
            ++ " Active: " ++ toString body.specReplicas))
        else ({ d with CurrentReplicas := num }, none) := by
  unfold AdjustDeployment scaleUrl
  dsimp only
  rw [if_neg hne, if_neg hn, if_neg hns, if_pos hlt]

/-- The order of the final `rpl` in the raw count, on integers: `M` bounds the
raw counts, and the current count is out of their range, or it is 0 or at least
`lo`, and `M` or at most `hi`. -/
theorem final_mono_region (lo hi cur M r1 r2 : Int) (hlh : lo ≤ hi) (h0 : 0 ≤ r1)
    (h12 : r1 ≤ r2) (h2M : r2 ≤ M)
    (hreg : cur < 0 ∨ M < cur ∨ ((cur = 0 ∨ lo ≤ cur) ∧ (cur = M ∨ cur ≤ hi))) :
    (if r1 = cur then cur else if r1 = 0 then lo else max lo (min r1 hi)) ≤
      (if r2 = cur then cur else if r2 = 0 then lo else max lo (min r2 hi)) := by
  split_ifs <;> omega

theorem rawReplicas_le_max (bps Rate : Nat) (hb : bps < 2 ^ 64) :
    rawReplicas bps Rate ≤ maxRawReplicas Rate :=
  rawReplicas_mono Rate (by omega)

theorem throughputSeen_deviceAt (b : Nat) (cfg : Configuration) :
    throughputSeen (deviceAt b) cfg = b % 2 ^ 64 :=
  rfl

theorem rawReplicas_mul (n Rate : Nat) (hr : 0 < Rate) :
    rawReplicas (n * Rate * 1000) Rate = (n : Int) := by
  unfold rawReplicas
  rw [Nat.mul_div_cancel _ (by norm_num : 0 < 1000), Nat.mul_div_cancel _ hr]

theorem mul_lt_of_le_maxRaw (n Rate : Nat) (h : (n : Int) ≤ maxRawReplicas Rate) :
    n * Rate * 1000 < 2 ^ 64 := by
  unfold maxRawReplicas rawReplicas at h
  have h1 : n ≤ (2 ^ 64 - 1) / 1000 / Rate := Int.ofNat_le.mp h
  rcases Nat.eq_zero_or_pos Rate with h0 | h0
  · rw [h0]
    norm_num
  · have h2 : n * Rate ≤ (2 ^ 64 - 1) / 1000 := (Nat.le_div_iff_mul_le h0).mp h1
    have h3 : n * Rate * 1000 ≤ 2 ^ 64 - 1 :=
      (Nat.le_div_iff_mul_le (by norm_num : 0 < 1000)).mp h2
    omega

/-- The value of `rpl` when `procLoop` stops, for a load balancer that reports
the `uint64` throughput `b`. -/
theorem procLoop_rpl_deviceAt (b : Nat) (c : Cluster) (cfg : Configuration)
    (hs : statusErr c cfg = none) (hr : 0 < cfg.Thunder.Rate)
    (hm : cfg.Cluster.Min_Pods ≤ cfg.Cluster.Max_Pods) (hb : b < 2 ^ 64) :
    (procLoop (deviceAt b) c cfg).rpl =
      some (if rawReplicas b cfg.Thunder.Rate = (statusSeen c cfg).CurrentReplicas
            then (statusSeen c cfg).CurrentReplicas
            else specTarget b cfg.Thunder.Rate cfg.Cluster.Min_Pods cfg.Cluster.Max_Pods) := by
  have h := procLoop_rpl (deviceAt b) c cfg hs hr hm
  rw [throughputSeen_deviceAt, Nat.mod_eq_of_lt hb] at h
  exact h

/-! ### The text of the PATCH body -/

theorem digitChar_value (k : Nat) (hk : k < 10) : (Nat.digitChar k).toNat - 48 = k := by
  interval_cases k <;> rfl

theorem digitChar_ne_minus (k : Nat) (hk : k < 10) : Nat.digitChar k ≠ '-' := by
  interval_cases k <;> decide

theorem foldl_toDigitsCore (fuel : Nat) :
    ∀ (n : Nat) (ds : List Char), n < fuel →
      (Nat.toDigitsCore 10 fuel n ds).foldl (fun acc c => 10 * acc + (c.toNat - 48)) 0 =
        ds.foldl (fun acc c => 10 * acc + (c.toNat - 48)) n := by
  induction fuel with
  | zero => intro n ds h; omega
  | succ fuel ih =>
    intro n ds h
    unfold Nat.toDigitsCore
    dsimp only
    by_cases h0 : n / 10 = 0
    · rw [if_pos h0]
      rw [List.foldl_cons, digitChar_value _ (Nat.mod_lt _ (by norm_num))]
      congr 1
      omega
    · rw [if_neg h0]
      rw [ih (n / 10) _ (by omega), List.foldl_cons,
        digitChar_value _ (Nat.mod_lt _ (by norm_num))]
      congr 1
      omega

theorem head_toDigitsCore (fuel : Nat) :
    ∀ (n : Nat) (ds : List Char), n < fuel →
      ∃ k tl, k < 10 ∧ Nat.toDigitsCore 10 fuel n ds = Nat.digitChar k :: tl := by
  induction fuel with
  | zero => intro n ds h; omega
  | succ fuel ih =>
    intro n ds h
    unfold Nat.toDigitsCore
    dsimp only
    by_cases h0 : n / 10 = 0
    · rw [if_pos h0]
      exact ⟨n % 10, ds, Nat.mod_lt _ (by norm_num), rfl⟩
    · rw [if_neg h0]
      exact ih (n / 10) _ (by omega)

/-- Reading the decimal text of a natural number gives the number back. -/
theorem decimalValue_repr (n : Nat) : decimalValue (Nat.repr n).data = n := by
  unfold decimalValue
  show (Nat.toDigits 10 n).foldl _ 0 = n
  unfold Nat.toDigits
  rw [foldl_toDigitsCore (n + 1) n [] (by omega)]
  rfl

theorem repr_injective {a b : Nat} (h : Nat.repr a = Nat.repr b) : a = b := by
  rw [← decimalValue_repr a, ← decimalValue_repr b, h]

theorem repr_head (n : Nat) : ∃ k tl, k < 10 ∧ (Nat.repr n).data = Nat.digitChar k :: tl :=
  head_toDigitsCore (n + 1) n [] (by omega)

/-- The decimal text of an integer determines the integer. -/
theorem toString_int_injective {a b : Int} (h : toString a = toString b) : a = b := by
  cases a with
  | ofNat m =>
    cases b with
    | ofNat k =>
      have h1 : Nat.repr m = Nat.repr k := h
      rw [repr_injective h1]
    | negSucc k =>
      exfalso
      have h1 : Nat.repr m = "-" ++ Nat.repr (k + 1) := h
      obtain ⟨d, tl, hd, hhead⟩ := repr_head m
      rw [h1, String.data_append] at hhead
      have h2 : '-' = Nat.digitChar d := List.head_eq_of_cons_eq hhead
      exact digitChar_ne_minus d hd h2.symm
  | negSucc m =>
    cases b with
    | ofNat k =>
      exfalso
      have h1 : "-" ++ Nat.repr (m + 1) = Nat.repr k := h
      obtain ⟨d, tl, hd, hhead⟩ := repr_head k
      rw [← h1, String.data_append] at hhead
      have h2 : '-' = Nat.digitChar d := List.head_eq_of_cons_eq hhead
      exact digitChar_ne_minus d hd h2.symm
    | negSucc k =>
      have h1 : "-" ++ Nat.repr (m + 1) = "-" ++ Nat.repr (k + 1) := h
      have h2 := congrArg String.data h1
      rw [String.data_append, String.data_append] at h2
      have h3 : Nat.repr (m + 1) = Nat.repr (k + 1) :=
        String.ext (List.append_cancel_left h2)
      have h4 := repr_injective h3
      have h5 : m = k := by omega
      rw [h5]

/-- The PATCH body determines the replica count it carries. -/
theorem scalePayload_injective {a b : Int} (h : scalePayload a = scalePayload b) : a = b := by
  unfold scalePayload at h
  have h2 := congrArg String.data h
  simp only [String.data_append] at h2
  have h3 := List.append_cancel_left (List.append_cancel_right h2)
  exact toString_int_injective (String.ext h3)

/-! ## The claims -/

/-- C1 (as amended): with a successful status fetch, `Rate > 0` and
`Min_Pods <= Max_Pods`, the value of `rpl` when `procLoop` stops is
`floor((bps / 1000) / Rate)` clamped to `[Min_Pods, Max_Pods]` (`Min_Pods` when
the floor is 0) whenever that floor differs from the current replica count; when
the floor equals the current replica count the block of lines 111-172 is skipped
and `rpl` stays at the floor, which is the current count, unclamped. -/
theorem C1_final_rpl (d : Device) (c : Cluster) (cfg : Configuration)
    (hs : statusErr c cfg = none) (hr : 0 < cfg.Thunder.Rate)
    (hm : cfg.Cluster.Min_Pods ≤ cfg.Cluster.Max_Pods) :
    (procLoop d c cfg).rpl =
      some (if rawReplicas (throughputSeen d cfg) cfg.Thunder.Rate =
              (statusSeen c cfg).CurrentReplicas
            then (statusSeen c cfg).CurrentReplicas
            else specTarget (throughputSeen d cfg) cfg.Thunder.Rate
              cfg.Cluster.Min_Pods cfg.Cluster.Max_Pods) :=
  procLoop_rpl d c cfg hs hr hm

/-- Witness of C1 (as amended): scenario A with 3 replicas running. -/
theorem C1_final_rpl_witness :
    (procLoop (deviceAt 267184000) (clusterAt 3 ({ specReplicas := 10 }, none))
      (cfgAt 2 10 50)).rpl =
      some (if rawReplicas (throughputSeen (deviceAt 267184000) (cfgAt 2 10 50)) 50 =
              (statusSeen (clusterAt 3 ({ specReplicas := 10 }, none))
                (cfgAt 2 10 50)).CurrentReplicas
            then (statusSeen (clusterAt 3 ({ specReplicas := 10 }, none))
                (cfgAt 2 10 50)).CurrentReplicas
            else specTarget (throughputSeen (deviceAt 267184000) (cfgAt 2 10 50)) 50 2 10) :=
  C1_final_rpl (deviceAt 267184000) (clusterAt 3 ({ specReplicas := 10 }, none))
    (cfgAt 2 10 50) (by decide) (by decide) (by decide)

/-- Counterexample to C1 as stated: with `bps = 0`, `Rate = 50`, `Min_Pods = 2`,
`Max_Pods = 10` and no replica running, both fetches succeed and `procLoop`
ends with `rpl = 0`, while the clamped target is 2. -/
theorem C1_counterexample :
    throughputErr (deviceAt 0) (cfgAt 2 10 50) = none ∧
    statusErr (clusterAt 0 ({ specReplicas := 2 }, none)) (cfgAt 2 10 50) = none ∧
    throughputSeen (deviceAt 0) (cfgAt 2 10 50) = 0 ∧
    (statusSeen (clusterAt 0 ({ specReplicas := 2 }, none)) (cfgAt 2 10 50)).CurrentReplicas
      = 0 ∧
    (procLoop (deviceAt 0) (clusterAt 0 ({ specReplicas := 2 }, none)) (cfgAt 2 10 50)).rpl
      = some 0 ∧
    specTarget 0 50 2 10 = 2 := by
  decide

/-- C2: whenever `procLoop` calls `AdjustDeployment`, with `Rate > 0` and
`Min_Pods <= Max_Pods`, the replica count it passes is
`floor((bps / 1000) / Rate)` clamped to `[Min_Pods, Max_Pods]` (`Min_Pods` when
the floor is 0), hence within `[Min_Pods, Max_Pods]`; for `bps = 267184000`,
`Rate = 50` and `Max_Pods = 10` it is 10. -/
theorem C2_requested_count (d : Device) (c : Cluster) (cfg : Configuration)
    (call : AdjustCall) (hr : 0 < cfg.Thunder.Rate)
    (hm : cfg.Cluster.Min_Pods ≤ cfg.Cluster.Max_Pods)
    (hcall : (procLoop d c cfg).adjust = some call) :
    call.num = specTarget (throughputSeen d cfg) cfg.Thunder.Rate
        cfg.Cluster.Min_Pods cfg.Cluster.Max_Pods ∧
      cfg.Cluster.Min_Pods ≤ call.num ∧ call.num ≤ cfg.Cluster.Max_Pods ∧
      (throughputSeen d cfg = 267184000 → cfg.Thunder.Rate = 50 →
        cfg.Cluster.Max_Pods = 10 → call.num = 10) := by
  have hs := statusErr_of_adjust d c cfg call hcall
  obtain ⟨log, hp⟩ := procLoop_eq d c cfg hs hr
  rw [hp, adjustIfNeeded_adjust, clampReplicas_spec cfg _ hm] at hcall
  have hnum : call.num = specTarget (throughputSeen d cfg) cfg.Thunder.Rate
      cfg.Cluster.Min_Pods cfg.Cluster.Max_Pods := by
    split_ifs at hcall
    have := Option.some.inj hcall
    rw [← this]
  have hb := specTarget_bounds (throughputSeen d cfg) cfg.Thunder.Rate _ _ hm
  refine ⟨hnum, hnum ▸ hb.1, hnum ▸ hb.2, ?_⟩
  intro h1 h2 h3
  rw [hnum, h1, h2, h3]
  rw [h3] at hm
  have hraw : rawReplicas 267184000 50 = 5343 := by decide
  unfold specTarget
  rw [hraw]
  simp only [show ¬ ((5343 : Int) = 0) by decide, if_false]
  omega

/-- Witness of C2: scenario A, 3 replicas running, the PATCH answered with 10. -/
theorem C2_requested_count_witness :
    (procLoop (deviceAt 267184000) (clusterAt 3 ({ specReplicas := 10 }, none))
      (cfgAt 2 10 50)).adjust =
        some { d := webAt 3, num := 10, ret := webAt 10, err := none } ∧
      (10 : Int) = specTarget (throughputSeen (deviceAt 267184000) (cfgAt 2 10 50)) 50 2 10 :=
  ⟨by decide,
    (C2_requested_count (deviceAt 267184000) (clusterAt 3 ({ specReplicas := 10 }, none))
      (cfgAt 2 10 50) { d := webAt 3, num := 10, ret := webAt 10, err := none }
      (by decide) (by decide) (by decide)).1⟩

/-- C3: in a tick whose status fetch succeeds, with `Rate > 0` and
`Min_Pods <= Max_Pods`, if the clamped target equals the current replica count
then `procLoop` makes no call of `AdjustDeployment`, starts no goroutine and
returns. This holds for the throughput `procLoop` sees, hence in particular when
the throughput fetch succeeded. -/
theorem C3_no_action_when_target_is_current (d : Device) (c : Cluster)
    (cfg : Configuration) (hs : statusErr c cfg = none) (hr : 0 < cfg.Thunder.Rate)
    (hm : cfg.Cluster.Min_Pods ≤ cfg.Cluster.Max_Pods)
    (heq : specTarget (throughputSeen d cfg) cfg.Thunder.Rate cfg.Cluster.Min_Pods
      cfg.Cluster.Max_Pods = (statusSeen c cfg).CurrentReplicas) :
    (procLoop d c cfg).adjust = none ∧ (procLoop d c cfg).monitor = none ∧
      (procLoop d c cfg).outcome = Outcome.returned := by
  obtain ⟨log, hp⟩ := procLoop_eq d c cfg hs hr
  rw [hp, adjustIfNeeded_adjust, adjustIfNeeded_monitor, adjustIfNeeded_outcome,
    clampReplicas_spec cfg _ hm]
  simp [heq]

/-- Witness of C3: scenario C, 3 replicas running and a target of 3. -/
theorem C3_no_action_witness :
    throughputErr (deviceAt 150000) (cfgAt 2 10 50) = none ∧
    specTarget (throughputSeen (deviceAt 150000) (cfgAt 2 10 50)) 50 2 10 = 3 ∧
    (procLoop (deviceAt 150000) (clusterAt 3 ({ specReplicas := 3 }, none))
      (cfgAt 2 10 50)).adjust = none ∧
    (procLoop (deviceAt 150000) (clusterAt 3 ({ specReplicas := 3 }, none))
      (cfgAt 2 10 50)).monitor = none :=
  have h := C3_no_action_when_target_is_current (deviceAt 150000)
    (clusterAt 3 ({ specReplicas := 3 }, none)) (cfgAt 2 10 50)
    (by decide) (by decide) (by decide) (by decide)
  ⟨by decide, by decide, h.1, h.2.1⟩

/-- C4 (as amended): for fixed `Rate > 0`, fixed `Min_Pods <= Max_Pods` and a
fixed current replica count `cur`, fetched successfully, the value of `rpl` when
`procLoop` stops is monotone in the throughput if and only if `cur` is not a raw
count that a `uint64` throughput gives (`cur < 0`, or `cur` above
`floor(((2 ^ 64 - 1) / 1000) / Rate)`), or `cur` satisfies both
(`cur = 0` or `Min_Pods <= cur`) and (`cur <= Max_Pods` or `cur` is that largest
raw count). -/
theorem C4_monotone_iff (c : Cluster) (cfg : Configuration)
    (hs : statusErr c cfg = none) (hr : 0 < cfg.Thunder.Rate)
    (hm : cfg.Cluster.Min_Pods ≤ cfg.Cluster.Max_Pods) :
    (∀ d1 d2 : Device, throughputSeen d1 cfg ≤ throughputSeen d2 cfg →
      ∃ t1 t2 : Int, (procLoop d1 c cfg).rpl = some t1 ∧
        (procLoop d2 c cfg).rpl = some t2 ∧ t1 ≤ t2) ↔
    ((statusSeen c cfg).CurrentReplicas < 0 ∨
      maxRawReplicas cfg.Thunder.Rate < (statusSeen c cfg).CurrentReplicas ∨
      (((statusSeen c cfg).CurrentReplicas = 0 ∨
          cfg.Cluster.Min_Pods ≤ (statusSeen c cfg).CurrentReplicas) ∧
        ((statusSeen c cfg).CurrentReplicas = maxRawReplicas cfg.Thunder.Rate ∨
          (statusSeen c cfg).CurrentReplicas ≤ cfg.Cluster.Max_Pods))) := by
  constructor
  · intro hmono
    by_contra hreg
    have hM0 : 0 ≤ maxRawReplicas cfg.Thunder.Rate := rawReplicas_nonneg _ _
    have h0 : 0 ≤ (statusSeen c cfg).CurrentReplicas := by omega
    have hM : (statusSeen c cfg).CurrentReplicas ≤ maxRawReplicas cfg.Thunder.Rate := by
      omega
    obtain ⟨n, hn⟩ := Int.eq_ofNat_of_zero_le h0
    rw [hn] at hreg hM
    have hnb : n * cfg.Thunder.Rate * 1000 < 2 ^ 64 := mul_lt_of_le_maxRaw n _ hM
    have e1 := procLoop_rpl_deviceAt (n * cfg.Thunder.Rate * 1000) c cfg hs hr hm hnb
    rw [rawReplicas_mul n _ hr, hn, if_pos rfl] at e1
    by_cases hA : (n : Int) = 0 ∨ cfg.Cluster.Min_Pods ≤ (n : Int)
    · have hlt : ((n + 1 : Nat) : Int) ≤ maxRawReplicas cfg.Thunder.Rate := by
        push_cast
        omega
      have hnb2 : (n + 1) * cfg.Thunder.Rate * 1000 < 2 ^ 64 :=
        mul_lt_of_le_maxRaw (n + 1) _ hlt
      have e2 := procLoop_rpl_deviceAt ((n + 1) * cfg.Thunder.Rate * 1000) c cfg hs hr hm hnb2
      unfold specTarget at e2
      rw [rawReplicas_mul (n + 1) _ hr, hn] at e2
      obtain ⟨t1, t2, f1, f2, hle⟩ := hmono (deviceAt (n * cfg.Thunder.Rate * 1000))
        (deviceAt ((n + 1) * cfg.Thunder.Rate * 1000)) (by
          rw [throughputSeen_deviceAt, throughputSeen_deviceAt, Nat.mod_eq_of_lt hnb,
            Nat.mod_eq_of_lt hnb2]
          exact Nat.mul_le_mul_right _ (Nat.mul_le_mul_right _ (Nat.le_succ n)))
      rw [e1] at f1
      rw [e2] at f2
      have g1 := Option.some.inj f1
      have g2 := Option.some.inj f2
      push_cast at g2
      split_ifs at g2 <;> omega
    · have hnb0 : 0 < 2 ^ 64 := by norm_num
      have e0 := procLoop_rpl_deviceAt 0 c cfg hs hr hm hnb0
      unfold specTarget at e0
      have hraw0 : rawReplicas 0 cfg.Thunder.Rate = 0 := by
        unfold rawReplicas
        simp
      rw [hraw0, hn] at e0
      obtain ⟨t1, t2, f1, f2, hle⟩ := hmono (deviceAt 0)
        (deviceAt (n * cfg.Thunder.Rate * 1000)) (by
          rw [throughputSeen_deviceAt, throughputSeen_deviceAt]
          exact Nat.zero_le _)
      rw [e0] at f1
      rw [e1] at f2
      have g1 := Option.some.inj f1
      have g2 := Option.some.inj f2
      split_ifs at g1 <;> omega
  · intro hreg d1 d2 hb
    refine ⟨_, _, procLoop_rpl d1 c cfg hs hr hm, procLoop_rpl d2 c cfg hs hr hm, ?_⟩
    unfold specTarget
    exact final_mono_region _ _ _ _ _ _ hm (rawReplicas_nonneg _ _)
      (rawReplicas_mono _ hb) (rawReplicas_le_max _ _ (throughputSeen_lt d2 cfg)) hreg

/-- Witness of C4 (as amended): no replica running, below `Min_Pods = 2`, with
`Max_Pods = 10` and `Rate = 50`; the throughput goes from 50000 to 150000 bits
per second and `rpl` from 2 to 3. -/
theorem C4_monotone_iff_witness :
    ∃ t1 t2 : Int,
      (procLoop (deviceAt 50000) (clusterAt 0 ({ specReplicas := 2 }, none))
        (cfgAt 2 10 50)).rpl = some t1 ∧
      (procLoop (deviceAt 150000) (clusterAt 0 ({ specReplicas := 2 }, none))
        (cfgAt 2 10 50)).rpl = some t2 ∧ t1 ≤ t2 :=
  (C4_monotone_iff (clusterAt 0 ({ specReplicas := 2 }, none)) (cfgAt 2 10 50)
    (by decide) (by decide) (by decide)).mpr (by decide)
    (deviceAt 50000) (deviceAt 150000) (by decide)

/-- Counterexample to C4 as stated: with `Rate = 50`, bounds 1 and 10 and 20
replicas running, a throughput of 1000000 bits per second leaves `rpl` at 20,
and the larger throughput 1050000 gives 10. -/
theorem C4_counterexample :
    throughputSeen (deviceAt 1000000) (cfgAt 1 10 50) ≤
      throughputSeen (deviceAt 1050000) (cfgAt 1 10 50) ∧
    (procLoop (deviceAt 1000000) (clusterAt 20 ({ specReplicas := 10 }, none))
      (cfgAt 1 10 50)).rpl = some 20 ∧
    (procLoop (deviceAt 1050000) (clusterAt 20 ({ specReplicas := 10 }, none))
      (cfgAt 1 10 50)).rpl = some 10 ∧
    ¬ ((20 : Int) ≤ 10) := by
  decide

/-- C5 (as amended): `procLoop` keeps no record of the goroutines it started.
Whatever the calls and goroutines of the process so far, pending ones included,
a tick that computes a target `t` different from the current replica count
calls `AdjustDeployment` with `t` once more and starts one more goroutine for
`t`, leaving the earlier goroutines as they are. -/
theorem C5_tick_adjusts_whatever_is_pending (cfg : Configuration) (s : Sys) (d : Device)
    (c : Cluster) (t : Int) (hrun : s.outcome = Outcome.returned)
    (ht : (procLoop d c cfg).rpl = some t)
    (hne : t ≠ (statusSeen c cfg).CurrentReplicas) :
    (Sys.step cfg s (Step.tick d c)).calls =
        s.calls ++ [{ d := statusSeen c cfg, num := t
                      ret := (AdjustDeployment c (statusSeen c cfg) t).1
                      err := (AdjustDeployment c (statusSeen c cfg) t).2 }] ∧
      (Sys.step cfg s (Step.tick d c)).monitors =
        s.monitors ++ [{ y := (AdjustDeployment c (statusSeen c cfg) t).1, rpl := t
                         timeout := cfg.Timeout, state := MonitorState.Pending }] := by
  have hs : statusErr c cfg = none := by
    rcases hs : statusErr c cfg with _ | e
    · rfl
    · rw [(procLoop_of_statusErr d c cfg e hs).2.2.2] at ht
      exact absurd ht (by simp)
  have hr : 0 < cfg.Thunder.Rate := by
    rcases Nat.eq_zero_or_pos cfg.Thunder.Rate with h0 | h0
    · exfalso
      unfold statusErr at hs
      unfold procLoop at ht
      rcases hg : GetDeploymentStatus c cfg.Cluster.Deployment cfg.Cluster.Namespace
        with ⟨y, e1⟩
      rw [hg] at hs ht
      simp only at hs
      subst hs
      simp [h0] at ht
    · exact h0
  obtain ⟨log, hp⟩ := procLoop_eq d c cfg hs hr
  rw [Sys.step_tick cfg s d c hrun]
  rw [hp, adjustIfNeeded_rpl] at ht
  rw [hp, adjustIfNeeded_adjust, adjustIfNeeded_monitor]
  have ht1 := Option.some.inj ht
  by_cases h1 : rawReplicas (throughputSeen d cfg) cfg.Thunder.Rate =
      (statusSeen c cfg).CurrentReplicas
  · rw [if_pos h1] at ht1
    exact absurd (ht1.symm.trans h1) hne
  · rw [if_neg h1] at ht1
    rw [ht1]
    simp [h1, hne]

/-- Witness of C5 (as amended): the first tick asks for 10 replicas, its
goroutine polls once and stays pending, and the second tick asks for 5. -/
theorem C5_tick_adjusts_witness :
    (RunProcLoop (cfgAt 2 10 50)
      [Step.tick (deviceAt 267184000) (clusterAt 3 ({ specReplicas := 10 }, none)),
       Step.select 0 (Select.ticker (clusterAt 3 ({}, none)))]).monitors.map
        (fun m => (m.state, m.polls)) = [(MonitorState.Pending, 1)] ∧
    (Sys.step (cfgAt 2 10 50)
      (RunProcLoop (cfgAt 2 10 50)
        [Step.tick (deviceAt 267184000) (clusterAt 3 ({ specReplicas := 10 }, none)),
         Step.select 0 (Select.ticker (clusterAt 3 ({}, none)))])
      (Step.tick (deviceAt 250000) (clusterAt 3 ({ specReplicas := 5 }, none)))).calls =
      (RunProcLoop (cfgAt 2 10 50)
        [Step.tick (deviceAt 267184000) (clusterAt 3 ({ specReplicas := 10 }, none)),
         Step.select 0 (Select.ticker (clusterAt 3 ({}, none)))]).calls ++
        [{ d := statusSeen (clusterAt 3 ({ specReplicas := 5 }, none)) (cfgAt 2 10 50)
           num := 5
           ret := (AdjustDeployment (clusterAt 3 ({ specReplicas := 5 }, none))
             (statusSeen (clusterAt 3 ({ specReplicas := 5 }, none)) (cfgAt 2 10 50)) 5).1
           err := (AdjustDeployment (clusterAt 3 ({ specReplicas := 5 }, none))
             (statusSeen (clusterAt 3 ({ specReplicas := 5 }, none)) (cfgAt 2 10 50)) 5).2 }] :=
  ⟨by decide,
    (C5_tick_adjusts_whatever_is_pending (cfgAt 2 10 50)
      (RunProcLoop (cfgAt 2 10 50)
        [Step.tick (deviceAt 267184000) (clusterAt 3 ({ specReplicas := 10 }, none)),
         Step.select 0 (Select.ticker (clusterAt 3 ({}, none)))])
      (deviceAt 250000) (clusterAt 3 ({ specReplicas := 5 }, none)) 5
      (by decide) (by decide) (by decide)).1⟩

/-- Counterexample to C5 as stated: with `check_interval: 5` and
`cmd_timeout: 20`, the first tick asks for 10 replicas and starts a goroutine;
that goroutine has polled once (3 replicas reported) and is pending when the
second tick computes the target 5 for 3 running replicas; the second tick calls
`AdjustDeployment` again and starts a second goroutine. -/
theorem C5_counterexample :
    (RunProcLoop (cfgAt 2 10 50)
      [Step.tick (deviceAt 267184000) (clusterAt 3 ({ specReplicas := 10 }, none)),
       Step.select 0 (Select.ticker (clusterAt 3 ({}, none)))]).monitors.map
        (fun m => (m.rpl, m.state)) = [(10, MonitorState.Pending)] ∧
    (procLoop (deviceAt 250000) (clusterAt 3 ({ specReplicas := 5 }, none))
      (cfgAt 2 10 50)).rpl = some 5 ∧
    (statusSeen (clusterAt 3 ({ specReplicas := 5 }, none)) (cfgAt 2 10 50)).CurrentReplicas
      = 3 ∧
    (RunProcLoop (cfgAt 2 10 50)
      [Step.tick (deviceAt 267184000) (clusterAt 3 ({ specReplicas := 10 }, none)),
       Step.select 0 (Select.ticker (clusterAt 3 ({}, none))),
       Step.tick (deviceAt 250000) (clusterAt 3 ({ specReplicas := 5 }, none))]).calls.map
        (fun call => call.num) = [10, 5] ∧
    (RunProcLoop (cfgAt 2 10 50)
      [Step.tick (deviceAt 267184000) (clusterAt 3 ({ specReplicas := 10 }, none)),
       Step.select 0 (Select.ticker (clusterAt 3 ({}, none))),
       Step.tick (deviceAt 250000) (clusterAt 3 ({ specReplicas := 5 }, none))]).monitors.map
        (fun m => (m.rpl, m.state)) =
      [(10, MonitorState.Pending), (5, MonitorState.Pending)] := by
  decide

/-- C6, the code at the failing input: the throughput fetch fails, the status
fetch reports 5 replicas, `Min_Pods = 2`, `Max_Pods = 10`, `Rate = 50`.
`procLoop` logs the error, goes on with the zero value of `port`, calls
`AdjustDeployment` for 2 replicas and starts the goroutine; `y` ends at 2. -/
theorem C6_failed_throughput_fetch_adjusts :
    throughputErr deviceDown (cfgAt 2 10 50) = some "dial tcp: connection refused" ∧
    throughputSeen deviceDown (cfgAt 2 10 50) = 0 ∧
    statusSeen (clusterAt 5 ({ specReplicas := 2 }, none)) (cfgAt 2 10 50) = webAt 5 ∧
    (procLoop deviceDown (clusterAt 5 ({ specReplicas := 2 }, none)) (cfgAt 2 10 50)).log =
      [Event.Error "dial tcp: connection refused",
       Event.Info "Adjusting Deployment \x27web\x27 to 2 Replicas."] ∧
    (procLoop deviceDown (clusterAt 5 ({ specReplicas := 2 }, none)) (cfgAt 2 10 50)).adjust =
      some { d := webAt 5, num := 2, ret := webAt 2, err := none } ∧
    (procLoop deviceDown (clusterAt 5 ({ specReplicas := 2 }, none)) (cfgAt 2 10 50)).monitor =
      some { y := webAt 2, rpl := 2, timeout := 20 } ∧
    (procLoop deviceDown (clusterAt 5 ({ specReplicas := 2 }, none)) (cfgAt 2 10 50)).y =
      webAt 2 := by
  decide

/-- C7 (as amended): a failed status fetch ends the process. At the start of a
tick `procLoop` stops at the `log.Fatal` of line 92, which exits with status 1,
having made no call of `AdjustDeployment` and started no goroutine; in a
confirmation poll a pending goroutine stops at the `log.Fatal` of line 160,
which exits the process with status 1; and after the exit no tick and no poll
runs. -/
theorem C7_status_fetch_failure_exits (cfg : Configuration) :
    (∀ (d : Device) (c : Cluster) (e : String), statusErr c cfg = some e →
      (procLoop d c cfg).outcome = Outcome.exit 1 ∧ (procLoop d c cfg).adjust = none ∧
        (procLoop d c cfg).monitor = none) ∧
    (∀ (s : Sys) (i : Nat) (m : Monitor) (c : Cluster) (e : String),
      s.outcome = Outcome.returned → s.monitors.get? i = some m →
      m.state = MonitorState.Pending →
      (GetDeploymentStatus c m.y.Name m.y.Namespace).2 = some e →
      (Sys.step cfg s (Step.select i (Select.ticker c))).outcome = Outcome.exit 1 ∧
        (m.step (Select.ticker c)).state = MonitorState.Failed ∧
        (m.step (Select.ticker c)).log = m.log ++ [Event.Fatal e]) ∧
    (∀ (s : Sys) (st : Step) (code : Int), s.outcome = Outcome.exit code →
      Sys.step cfg s st = s) := by
  refine ⟨?_, ?_, ?_⟩
  · intro d c e hs
    have h := procLoop_of_statusErr d c cfg e hs
    exact ⟨h.1, h.2.1, h.2.2.1⟩
  · intro s i m c e hrun hget hp herr
    have hm := Monitor.step_ticker_err m c e hp herr
    refine ⟨?_, by rw [hm], by rw [hm]⟩
    unfold Sys.step
    rw [hrun]
    simp only [ne_eq, not_true_eq_false, if_false, hget]
    rw [hm]
    simp [hp]
  · intro s st code h
    exact Sys.step_of_stopped cfg s st (by rw [h]; simp)

/-- Witness of C7 (as amended): a tick against an API server that answers 503,
and a poll of a pending goroutine against the same server. -/
theorem C7_status_fetch_failure_witness :
    (procLoop (deviceAt 150000) clusterDown (cfgAt 2 10 50)).outcome = Outcome.exit 1 ∧
    (Sys.step (cfgAt 2 10 50)
      (RunProcLoop (cfgAt 2 10 50)
        [Step.tick (deviceAt 267184000) (clusterAt 3 ({ specReplicas := 10 }, none))])
      (Step.select 0 (Select.ticker clusterDown))).outcome = Outcome.exit 1 :=
  ⟨((C7_status_fetch_failure_exits (cfgAt 2 10 50)).1 (deviceAt 150000) clusterDown
      "503 Service Unavailable" (by decide)).1,
    ((C7_status_fetch_failure_exits (cfgAt 2 10 50)).2.1
      (RunProcLoop (cfgAt 2 10 50)
        [Step.tick (deviceAt 267184000) (clusterAt 3 ({ specReplicas := 10 }, none))])
      0 { y := webAt 10, rpl := 10, timeout := 20 } clusterDown "503 Service Unavailable"
      (by decide) (by decide) (by decide) (by decide)).1⟩

/-- Counterexample to C7 as stated: against an API server that answers 503, a
tick ends with the process exited (status 1), and so does a poll of the pending
goroutine started by an earlier tick; the next tick does not run. -/
theorem C7_counterexample :
    statusErr clusterDown (cfgAt 2 10 50) = some "503 Service Unavailable" ∧
    (procLoop (deviceAt 150000) clusterDown (cfgAt 2 10 50)).log =
      [Event.Fatal "503 Service Unavailable"] ∧
    (procLoop (deviceAt 150000) clusterDown (cfgAt 2 10 50)).outcome = Outcome.exit 1 ∧
    (RunProcLoop (cfgAt 2 10 50)
      [Step.tick (deviceAt 267184000) (clusterAt 3 ({ specReplicas := 10 }, none)),
       Step.select 0 (Select.ticker clusterDown)]).outcome = Outcome.exit 1 ∧
    (RunProcLoop (cfgAt 2 10 50)
      [Step.tick (deviceAt 267184000) (clusterAt 3 ({ specReplicas := 10 }, none)),
       Step.select 0 (Select.ticker clusterDown)]).monitors.map (fun m => m.state) =
      [MonitorState.Failed] ∧
    (RunProcLoop (cfgAt 2 10 50)
      [Step.tick (deviceAt 267184000) (clusterAt 3 ({ specReplicas := 10 }, none)),
       Step.select 0 (Select.ticker clusterDown),
       Step.tick (deviceAt 250000) (clusterAt 3 ({ specReplicas := 5 }, none))]).calls.map
        (fun call => call.num) = [10] := by
  decide

/-- C8, the code at the failing input: 5 replicas running, a target of 3, and a
PATCH that the API server answers with an error. `procLoop` logs the error of
`AdjustDeployment` and starts the goroutine all the same. -/
theorem C8_failed_adjust_starts_monitor :
    (procLoop (deviceAt 150000) (clusterAt 5 ({}, some "500 Internal Server Error"))
      (cfgAt 2 10 50)).adjust =
      some { d := webAt 5, num := 3, ret := webAt 5,
             err := some "500 Internal Server Error" } ∧
    (procLoop (deviceAt 150000) (clusterAt 5 ({}, some "500 Internal Server Error"))
      (cfgAt 2 10 50)).log =
      [Event.Info "Adjusting Deployment \x27web\x27 to 3 Replicas.",
       Event.Error "500 Internal Server Error"] ∧
    (procLoop (deviceAt 150000) (clusterAt 5 ({}, some "500 Internal Server Error"))
      (cfgAt 2 10 50)).monitor =
      some { y := webAt 5, rpl := 3, timeout := 20, state := MonitorState.Pending } := by
  decide

/-- C9: whenever `AdjustDeployment c d num` returns an error, the deployment it
returns is `d`; hence when `procLoop` made that call (with its `y` as `d`), its
`y` is still `d` afterwards. -/
theorem C9_failed_adjust_returns_d (c : Cluster) (d : Deployment) (num : Int)
    (h : (AdjustDeployment c d num).2 ≠ none) :
    (AdjustDeployment c d num).1 = d ∧
      ∀ (dev : Device) (cfg : Configuration) (call : AdjustCall),
        (procLoop dev c cfg).adjust = some call → call.d = d → call.num = num →
        (procLoop dev c cfg).y = d := by
  have h1 := AdjustDeployment_of_err c d num h
  refine ⟨h1, ?_⟩
  intro dev cfg call hcall hd hnum
  have hinv := procLoop_adjust_inv dev c cfg call hcall
  rw [hinv.2.2.2.2.2, hinv.2.2.1, hd, hnum]
  exact h1

/-- Witness of C9: 5 replicas running, 3 requested, the PATCH answered with an
error; the deployment comes back with 5 replicas and `procLoop` keeps it. -/
theorem C9_failed_adjust_witness :
    (AdjustDeployment (clusterAt 5 ({}, some "500 Internal Server Error")) (webAt 5) 3).2
      = some "500 Internal Server Error" ∧
    (AdjustDeployment (clusterAt 5 ({}, some "500 Internal Server Error")) (webAt 5) 3).1
      = webAt 5 ∧
    (procLoop (deviceAt 150000) (clusterAt 5 ({}, some "500 Internal Server Error"))
      (cfgAt 2 10 50)).y = webAt 5 :=
  have h := C9_failed_adjust_returns_d (clusterAt 5 ({}, some "500 Internal Server Error"))
    (webAt 5) 3 (by decide)
  ⟨by decide, h.1,
    h.2 (deviceAt 150000) (cfgAt 2 10 50)
      { d := webAt 5, num := 3, ret := webAt 5, err := some "500 Internal Server Error" }
      (by decide) rfl rfl⟩

/-- C10 (as amended): when `procLoop` has called `AdjustDeployment` for a
target and every poll of the goroutine taken before the timeout case succeeds
with another count, the goroutine ends timed out: it logs "Adjustment of
Replicas Timed Out" and polls no more, whatever `select` rounds would follow.
The goroutine never writes the deployment `y` of `procLoop`: `y` stays as
`AdjustDeployment` returned it, that is, with `CurrentReplicas` equal to the
target when the call returned no error, and equal to the fetched deployment
when the call returned an error. -/
theorem C10_timed_out_monitor (d : Device) (c : Cluster) (cfg : Configuration)
    (call : AdjustCall) (m : Monitor) (polls : List Cluster) (rest : List Select)
    (hcall : (procLoop d c cfg).adjust = some call)
    (hmon : (procLoop d c cfg).monitor = some m)
    (hpolls : ∀ p ∈ polls, (GetDeploymentStatus p m.y.Name m.y.Namespace).2 = none ∧
      (GetDeploymentStatus p m.y.Name m.y.Namespace).1.CurrentReplicas ≠ call.num) :
    (m.run (polls.map Select.ticker ++ Select.timeout :: rest)).state
        = MonitorState.TimedOut ∧
      (m.run (polls.map Select.ticker ++ Select.timeout :: rest)).log
        = [Event.Error "Adjustment of Replicas Timed Out"] ∧
      (m.run (polls.map Select.ticker ++ Select.timeout :: rest)).polls = polls.length ∧
      (m.run (polls.map Select.ticker ++ Select.timeout :: rest)).y = (procLoop d c cfg).y ∧
      (call.err = none →
        (m.run (polls.map Select.ticker ++ Select.timeout :: rest)).y =
          { statusSeen c cfg with CurrentReplicas := call.num }) ∧
      (call.err ≠ none →
        (m.run (polls.map Select.ticker ++ Select.timeout :: rest)).y = statusSeen c cfg) := by
  have hinv := procLoop_adjust_inv d c cfg call hcall
  rw [hinv.2.2.2.2.1] at hmon
  have hm := (Option.some.inj hmon).symm
  subst hm
  rw [Monitor.run_timeout call.ret call.num cfg.Timeout polls rest hpolls]
  refine ⟨rfl, rfl, rfl, hinv.2.2.2.2.2.symm, ?_, ?_⟩
  · intro he
    show call.ret = _
    rw [hinv.2.2.1, ← hinv.1]
    exact AdjustDeployment_of_ok c call.d call.num (hinv.2.2.2.1 ▸ he)
  · intro he
    show call.ret = _
    rw [hinv.2.2.1, ← hinv.1]
    exact AdjustDeployment_of_err c call.d call.num (hinv.2.2.2.1 ▸ he)

/-- Witness of C10 (as amended): 3 replicas running, a target of 5, the PATCH
answered with 5, two polls that report 3 and 4, then the timeout. -/
theorem C10_timed_out_monitor_witness :
    (Monitor.run { y := webAt 5, rpl := 5, timeout := 20 }
      ([clusterAt 3 ({}, none), clusterAt 4 ({}, none)].map Select.ticker
        ++ Select.timeout :: [Select.ticker (clusterAt 5 ({}, none))])).state
      = MonitorState.TimedOut ∧
    (Monitor.run { y := webAt 5, rpl := 5, timeout := 20 }
      ([clusterAt 3 ({}, none), clusterAt 4 ({}, none)].map Select.ticker
        ++ Select.timeout :: [Select.ticker (clusterAt 5 ({}, none))])).polls = 2 :=
  have h := C10_timed_out_monitor (deviceAt 250000) (clusterAt 3 ({ specReplicas := 5 }, none))
    (cfgAt 2 10 50) { d := webAt 3, num := 5, ret := webAt 5, err := none }
    { y := webAt 5, rpl := 5, timeout := 20 }
    [clusterAt 3 ({}, none), clusterAt 4 ({}, none)]
    [Select.ticker (clusterAt 5 ({}, none))]
    (by decide) (by decide)
    (by
      intro p hp
      simp only [List.mem_cons, List.mem_singleton, List.not_mem_nil, or_false] at hp
      rcases hp with rfl | rfl <;> decide)
  ⟨h.1, h.2.2.1⟩

/-- Counterexample to C10 as stated: 3 replicas running, `cmd_timeout: 20`, a
target of 5 and a PATCH answered with 5; the two polls taken before the timeout
report 3 and 4. The goroutine ends timed out after 2 polls, and the `y` of
`procLoop`, which the goroutine holds, has `CurrentReplicas = 5`, the target,
not the 3 it had before the adjustment. -/
theorem C10_counterexample :
    (statusSeen (clusterAt 3 ({ specReplicas := 5 }, none)) (cfgAt 2 10 50)).CurrentReplicas
      = 3 ∧
    (procLoop (deviceAt 250000) (clusterAt 3 ({ specReplicas := 5 }, none))
      (cfgAt 2 10 50)).adjust =
      some { d := webAt 3, num := 5, ret := webAt 5, err := none } ∧
    (procLoop (deviceAt 250000) (clusterAt 3 ({ specReplicas := 5 }, none))
      (cfgAt 2 10 50)).y.CurrentReplicas = 5 ∧
    (RunProcLoop (cfgAt 2 10 50)
      [Step.tick (deviceAt 250000) (clusterAt 3 ({ specReplicas := 5 }, none)),
       Step.select 0 (Select.ticker (clusterAt 3 ({}, none))),
       Step.select 0 (Select.ticker (clusterAt 4 ({}, none))),
       Step.select 0 Select.timeout]).monitors =
      [{ y := webAt 5, rpl := 5, timeout := 20, state := MonitorState.TimedOut, polls := 2
         log := [Event.Error "Adjustment of Replicas Timed Out"] }] := by
  decide

/-- C11, the code at the failing input: 5 replicas running, a target of 3, and a
PATCH whose reply is lost ("unexpected EOF"), so that `AdjustDeployment` returns
an error and `y` stays at 5 replicas. `procLoop` starts the goroutine all the
same; its first poll reports 4 and its second poll reports 3. The goroutine ends
confirmed after exactly 2 polls and takes no further poll, but the `y` of
`procLoop`, which it holds, has `CurrentReplicas = 5`, not the target 3. -/
theorem C11_confirmed_after_failed_adjust :
    (procLoop (deviceAt 150000) (clusterAt 5 ({}, some "unexpected EOF"))
      (cfgAt 2 10 50)).adjust =
      some { d := webAt 5, num := 3, ret := webAt 5, err := some "unexpected EOF" } ∧
    (procLoop (deviceAt 150000) (clusterAt 5 ({}, some "unexpected EOF"))
      (cfgAt 2 10 50)).y.CurrentReplicas = 5 ∧
    (RunProcLoop (cfgAt 2 10 50)
      [Step.tick (deviceAt 150000) (clusterAt 5 ({}, some "unexpected EOF")),
       Step.select 0 (Select.ticker (clusterAt 4 ({}, none)))]).monitors.map
        (fun m => (m.state, m.polls)) = [(MonitorState.Pending, 1)] ∧
    (RunProcLoop (cfgAt 2 10 50)
      [Step.tick (deviceAt 150000) (clusterAt 5 ({}, some "unexpected EOF")),
       Step.select 0 (Select.ticker (clusterAt 4 ({}, none))),
       Step.select 0 (Select.ticker (clusterAt 3 ({}, none))),
       Step.select 0 (Select.ticker (clusterAt 3 ({}, none)))]).monitors =
      [{ y := webAt 5, rpl := 3, timeout := 20, state := MonitorState.Confirmed, polls := 2
         log := [Event.Info "Adjustment of Cluster is Finished"] }] := by
  decide

/-- C12: whenever `AdjustDeployment c d num` returns no error, the deployment it
returns is `d` with `CurrentReplicas` set to `num`: `CurrentReplicas` is `num`
and `Name`, `Namespace` and `MinReplicas` are those of `d`; when
`num = d.CurrentReplicas` it returns `d` itself, with no error. -/
theorem C12_successful_adjust (c : Cluster) (d : Deployment) (num : Int)
    (h : (AdjustDeployment c d num).2 = none) :
    (AdjustDeployment c d num).1 = { d with CurrentReplicas := num } ∧
      (AdjustDeployment c d num).1.CurrentReplicas = num ∧
      (AdjustDeployment c d num).1.Name = d.Name ∧
      (AdjustDeployment c d num).1.Namespace = d.Namespace ∧
      (AdjustDeployment c d num).1.MinReplicas = d.MinReplicas ∧
      (num = d.CurrentReplicas → AdjustDeployment c d num = (d, none)) := by
  have h1 := AdjustDeployment_of_ok c d num h
  refine ⟨h1, by rw [h1], by rw [h1], by rw [h1], by rw [h1], ?_⟩
  intro heq
  unfold AdjustDeployment
  rw [if_pos heq]

/-- Witness of C12: 3 replicas running, 5 requested, the PATCH answered with 5. -/
theorem C12_successful_adjust_witness :
    (AdjustDeployment (clusterAt 3 ({ specReplicas := 5 }, none)) (webAt 3) 5).2 = none ∧
    (AdjustDeployment (clusterAt 3 ({ specReplicas := 5 }, none)) (webAt 3) 5).1 = webAt 5 :=
  ⟨by decide,
    (C12_successful_adjust (clusterAt 3 ({ specReplicas := 5 }, none)) (webAt 3) 5
      (by decide)).1⟩

/-- C13: for every `uint64` throughput `bps` and every `Rate > 0`, lines 103-104
of main.go do not divide by zero and the conversion to `int` does not wrap: the
quotient is below `2 ^ 63`, and `rpl` is the non-negative integer
`floor(bps / (1000 * Rate))`; `procLoop` run on that throughput and rate does not
panic and enters line 111 with that value. -/
theorem C13_rpl_is_floor (bps Rate : Nat) (hb : bps < 2 ^ 64) (hr : 0 < Rate) :
    bps / 1000 / Rate < 2 ^ 63 ∧
      replicasNeeded bps Rate = some ((bps / (1000 * Rate) : Nat) : Int) ∧
      toInt (bps / 1000 / Rate) = ((bps / (1000 * Rate) : Nat) : Int) ∧
      0 ≤ toInt (bps / 1000 / Rate) ∧
      ∀ (d : Device) (c : Cluster) (cfg : Configuration),
        throughputSeen d cfg = bps → cfg.Thunder.Rate = Rate → statusErr c cfg = none →
        (procLoop d c cfg).outcome = Outcome.returned ∧
          ∃ log, procLoop d c cfg =
            adjustIfNeeded c cfg log (statusSeen c cfg) ((bps / (1000 * Rate) : Nat) : Int) := by
  have h1 : bps / 1000 / Rate ≤ bps / 1000 := Nat.div_le_self _ _
  have h2 : bps / 1000 < 2 ^ 63 := by omega
  have hlt : bps / 1000 / Rate < 2 ^ 63 := lt_of_le_of_lt h1 h2
  have hdiv : bps / 1000 / Rate = bps / (1000 * Rate) := Nat.div_div_eq_div_mul _ _ _
  have hto : toInt (bps / 1000 / Rate) = ((bps / (1000 * Rate) : Nat) : Int) := by
    rw [toInt_of_lt hlt, hdiv]
  have hneed : replicasNeeded bps Rate = some ((bps / (1000 * Rate) : Nat) : Int) := by
    unfold replicasNeeded
    dsimp only
    rw [if_neg (Nat.pos_iff_ne_zero.mp hr), hto]
  refine ⟨hlt, hneed, hto, ?_, ?_⟩
  · rw [hto]
    exact Int.ofNat_nonneg _
  · intro d c cfg hbps hrate hs
    subst hbps
    subst hrate
    obtain ⟨log, hp⟩ := (procLoop_replicasNeeded d c cfg hs).1 _ hneed
    exact ⟨by rw [hp, adjustIfNeeded_outcome], log, hp⟩

/-- Witness of C13: the largest `uint64` throughput with `Rate = 1`, and
scenario A. -/
theorem C13_rpl_is_floor_witness :
    replicasNeeded (2 ^ 64 - 1) 1 = some 18446744073709551 ∧
    replicasNeeded 267184000 50 = some 5343 :=
  ⟨by
      have h := (C13_rpl_is_floor (2 ^ 64 - 1) 1 (by decide) (by decide)).2.1
      rw [h]
      decide,
    by
      have h := (C13_rpl_is_floor 267184000 50 (by decide) (by decide)).2.1
      rw [h]
      decide⟩

/-- C14: for a deployment `d` with non-blank `Name` and `Namespace` and a count
`num` with `num < d.MinReplicas` and `num != d.CurrentReplicas`, the one request
`AdjustDeployment` makes is a PATCH of the scale URL whose body is the text
`{"spec":{"replicas": N}}` (with the line breaks of k8s.go line 169) for
`N = d.MinReplicas`: that text carries `d.MinReplicas` and no other count, so it
is not the body for `num`, and the result depends on the cluster through the
reply to that request only. A reply without error that reports `d.MinReplicas`
makes it return the "Pod Replicas adjustment failed" error with `d` unchanged;
and it returns no error only when the reply reports `num`, which differs from
the count requested. -/
theorem C14_below_min_request (c : Cluster) (d : Deployment) (num : Int)
    (hn : d.Name ≠ "") (hns : d.Namespace ≠ "") (hlt : num < d.MinReplicas)
    (hne : num ≠ d.CurrentReplicas) :
    scaleUrl d =
      "/apis/apps/v1/namespaces/" ++ d.Namespace ++ "/deployments/" ++ d.Name ++ "/scale" ∧
    scalePayload d.MinReplicas =
      "\x7b\n\"spec\":\x7b\n\"replicas\": " ++ toString d.MinReplicas ++ "\n\x7d\n\x7d" ∧
    (∀ n : Int, scalePayload n = scalePayload d.MinReplicas → n = d.MinReplicas) ∧
    scalePayload d.MinReplicas ≠ scalePayload num ∧
    (AdjustDeployment c d num =
      match c.restCall (scaleUrl d) "PATCH" (scalePayload d.MinReplicas) with
      | (_, some err) => (d, some err)
      | (body, none) =>
        if body.specReplicas ≠ num then
          (d, some ("Pod Replicas adjustment failed - Required: " ++ toString num
            ++ " Active: " ++ toString body.specReplicas))
        else ({ d with CurrentReplicas := num }, none)) ∧
    (∀ c2 : Cluster,
      c2.restCall (scaleUrl d) "PATCH" (scalePayload d.MinReplicas) =
        c.restCall (scaleUrl d) "PATCH" (scalePayload d.MinReplicas) →
      AdjustDeployment c2 d num = AdjustDeployment c d num) ∧
    ((c.restCall (scaleUrl d) "PATCH" (scalePayload d.MinReplicas)).2 = none →
      (c.restCall (scaleUrl d) "PATCH" (scalePayload d.MinReplicas)).1.specReplicas
        = d.MinReplicas →
      AdjustDeployment c d num =
        (d, some ("Pod Replicas adjustment failed - Required: " ++ toString num
          ++ " Active: " ++ toString d.MinReplicas))) ∧
    ((AdjustDeployment c d num).2 = none →
      (c.restCall (scaleUrl d) "PATCH" (scalePayload d.MinReplicas)).2 = none ∧
      (c.restCall (scaleUrl d) "PATCH" (scalePayload d.MinReplicas)).1.specReplicas = num ∧
      (c.restCall (scaleUrl d) "PATCH" (scalePayload d.MinReplicas)).1.specReplicas
        ≠ d.MinReplicas) := by
  have key := AdjustDeployment_below_min c d num hn hns hlt hne
  refine ⟨rfl, rfl, fun n h => scalePayload_injective h, ?_, key, ?_, ?_, ?_⟩
  · intro h
    have := scalePayload_injective h
    omega
  · intro c2 h2
    rw [key, AdjustDeployment_below_min c2 d num hn hns hlt hne, h2]
  · intro herr hrep
    rw [key]
    rcases hr : c.restCall (scaleUrl d) "PATCH" (scalePayload d.MinReplicas) with ⟨body, e⟩
    rw [hr] at herr hrep
    dsimp only at herr hrep
    subst herr
    dsimp only
    have hx : body.specReplicas ≠ num := by omega
    rw [if_pos hx, hrep]
  · intro hok
    rw [key] at hok
    rcases hr : c.restCall (scaleUrl d) "PATCH" (scalePayload d.MinReplicas) with ⟨body, e⟩
    rw [hr] at hok
    rcases e with _ | e
    · dsimp only at hok ⊢
      by_cases hx : body.specReplicas ≠ num
      · rw [if_pos hx] at hok
        exact absurd hok (by simp)
      · have hx2 : body.specReplicas = num := not_not.mp hx
        exact ⟨rfl, hx2, by omega⟩
    · exact absurd hok (by simp)

/-- Witness of C14: the deployment `web` with `MinReplicas = 4` and 6 replicas
running, 2 requested. A cluster that accepts only the body for 4 replicas, and
answers it with 4, makes `AdjustDeployment` return "Pod Replicas adjustment
failed - Required: 2 Active: 4"; a cluster that accepts only the body for 2
replicas refuses the request. -/
theorem C14_below_min_witness :
    AdjustDeployment
      (clusterExpecting 6 "\x7b\n\"spec\":\x7b\n\"replicas\": 4\n\x7d\n\x7d" 4)
      { Name := "web", Namespace := "default", MinReplicas := 4, CurrentReplicas := 6 } 2 =
      ({ Name := "web", Namespace := "default", MinReplicas := 4, CurrentReplicas := 6 },
        some "Pod Replicas adjustment failed - Required: 2 Active: 4") ∧
    AdjustDeployment
      (clusterExpecting 6 "\x7b\n\"spec\":\x7b\n\"replicas\": 2\n\x7d\n\x7d" 2)
      { Name := "web", Namespace := "default", MinReplicas := 4, CurrentReplicas := 6 } 2 =
      ({ Name := "web", Namespace := "default", MinReplicas := 4, CurrentReplicas := 6 },
        some "400 Bad Request") :=
  ⟨(C14_below_min_request
      (clusterExpecting 6 "\x7b\n\"spec\":\x7b\n\"replicas\": 4\n\x7d\n\x7d" 4)
      { Name := "web", Namespace := "default", MinReplicas := 4, CurrentReplicas := 6 } 2
      (by decide) (by decide) (by decide) (by decide)).2.2.2.2.2.2.1 (by decide) (by decide),
    by decide⟩

end Autoscaler
